import Mathlib

/-!
Verification development for the multi-threaded tic-tac-toe ("jeux") game
server.  The C sources are embedded shallowly: each C function that the
properties below depend on is translated into a Lean function of the same
name, machine integers become Nat/Int, in-place mutation becomes explicit
state passing, and fallible calls return a result code paired with the
(possibly unchanged) state, exactly as the C functions return 0 or -1 and
mutate through pointers.  Mutexes, reference-count-driven frees of client
objects, and the floating-point Elo arithmetic (an external pure component
per the specification) are not modelled; where a modelling choice is made
it is noted next to the definition.
-/

set_option maxHeartbeats 1000000

/- ===================== Game engine: src/game.c ===================== -/

/-- GAME_ROLE enumeration (game.c comment block: NULL_ROLE, FIRST_PLAYER_ROLE,
SECOND_PLAYER_ROLE, with the usual C values 0, 1, 2). -/
inductive GAME_ROLE where
  | NULL_ROLE
  | FIRST_PLAYER_ROLE
  | SECOND_PLAYER_ROLE
deriving DecidableEq, Repr

/-- Numeric value of a GAME_ROLE as it appears in a packet header byte. -/
def game_role_code : GAME_ROLE → Nat
  | GAME_ROLE.NULL_ROLE => 0
  | GAME_ROLE.FIRST_PLAYER_ROLE => 1
  | GAME_ROLE.SECOND_PLAYER_ROLE => 2

/-- struct game (game.c).  `turn_X` and the board cells are C ints
(board: 0 means space, 1 if X, 2 if O); `terminated` is an int used as a
boolean.  The mutex and reference count are not part of the pure game
state used by the engine functions. -/
structure GAME where
  turn_X : Nat
  num_turns : Nat
  board : List Nat
  winner : GAME_ROLE
  terminated : Bool
deriving DecidableEq, Repr

/-- struct game_move (game.c): player 1 or 2, square 1..9. -/
structure GAME_MOVE where
  player : Nat
  square : Nat
deriving DecidableEq, Repr

/-- Board cell access, game->board[i]. -/
def cell (game : GAME) (i : Nat) : Nat :=
  game.board.getD i 0

/-- win (game.c lines 70-81): the eight three-in-a-row conditions. -/
def win (game : GAME) (player : Nat) : Bool :=
  (cell game 0 == player && cell game 1 == player && cell game 2 == player) ||
  (cell game 3 == player && cell game 4 == player && cell game 5 == player) ||
  (cell game 6 == player && cell game 7 == player && cell game 8 == player) ||
  (cell game 0 == player && cell game 3 == player && cell game 6 == player) ||
  (cell game 1 == player && cell game 4 == player && cell game 7 == player) ||
  (cell game 2 == player && cell game 5 == player && cell game 8 == player) ||
  (cell game 0 == player && cell game 4 == player && cell game 8 == player) ||
  (cell game 2 == player && cell game 4 == player && cell game 6 == player)

/-- game_create (game.c): initial state, X to move, empty board.
Allocation failure is not modelled. -/
def game_create : GAME :=
  { turn_X := 1
  , num_turns := 0
  , board := [0, 0, 0, 0, 0, 0, 0, 0, 0]
  , winner := GAME_ROLE.NULL_ROLE
  , terminated := false }

/-- game_apply_move (game.c lines 183-221).  C mutates the game in place
and returns 0 or -1; here failure is `none` and success returns the updated
game.  The update order follows the C body: place the mark, flip the
turn, check the two win conditions, increment num_turns, then terminate
on a full board. -/
def game_apply_move (game : GAME) (move : GAME_MOVE) : Option GAME :=
  if move.square < 1 ∨ 9 < move.square ∨ cell game (move.square - 1) ≠ 0 ∨
     (move.player = 1 ∧ game.turn_X ≠ 1) ∨ (move.player = 2 ∧ game.turn_X ≠ 0) ∨
     game.terminated = true then
    none
  else
    let g1 : GAME := { game with
      board := game.board.set (move.square - 1) move.player
      , turn_X := if game.turn_X ≠ 0 then 0 else 1 }
    let g2 : GAME :=
      if win g1 1 then { g1 with winner := GAME_ROLE.FIRST_PLAYER_ROLE, terminated := true }
      else g1
    let g3 : GAME :=
      if win g2 2 then { g2 with winner := GAME_ROLE.SECOND_PLAYER_ROLE, terminated := true }
      else g2
    let g4 : GAME := { g3 with num_turns := g3.num_turns + 1 }
    some (if 9 ≤ g4.num_turns then { g4 with terminated := true } else g4)

/-- game_resign (game.c lines 231-241): error if already terminated,
otherwise terminate with the opposite role as winner. -/
def game_resign (game : GAME) (role : GAME_ROLE) : Option GAME :=
  if game.terminated = true then none
  else some { game with
    terminated := true
    , winner := if role = GAME_ROLE.FIRST_PLAYER_ROLE then GAME_ROLE.SECOND_PLAYER_ROLE
               else GAME_ROLE.FIRST_PLAYER_ROLE }

/-- game_is_over (game.c). -/
def game_is_over (game : GAME) : Bool :=
  game.terminated

/-- game_get_winner (game.c lines 312-323), taking the C NULL check into
account by accepting an optional game. -/
def game_get_winner : Option GAME → GAME_ROLE
  | none => GAME_ROLE.NULL_ROLE
  | some game =>
    if game.terminated = true then game.winner
    else if win game 1 then GAME_ROLE.FIRST_PLAYER_ROLE
    else if win game 2 then GAME_ROLE.SECOND_PLAYER_ROLE
    else GAME_ROLE.NULL_ROLE

/-- game_parse_move (game.c lines 341-383).  C strings become `List Char`.
A one-character string "1".."9" takes the player from the role; a
four-character string "d<-X"/"d<-O" takes the player from its last
character. -/
def game_parse_move (game : GAME) (role : GAME_ROLE) (str : List Char) : Option GAME_MOVE :=
  if role ≠ GAME_ROLE.NULL_ROLE ∧
     ((role = GAME_ROLE.FIRST_PLAYER_ROLE ∧ game.turn_X = 0) ∨
      (role = GAME_ROLE.SECOND_PLAYER_ROLE ∧ game.turn_X ≠ 0)) then
    none
  else if str.length = 1 then
    let c0 := str.getD 0 ' '
    if c0 < '1' ∨ '9' < c0 then none
    else some { player := if role = GAME_ROLE.FIRST_PLAYER_ROLE then 1 else 2
              , square := c0.toNat - '0'.toNat }
  else if str.length = 4 then
    let c0 := str.getD 0 ' '
    let c1 := str.getD 1 ' '
    let c2 := str.getD 2 ' '
    let c3 := str.getD 3 ' '
    if c0 < '1' ∨ '9' < c0 then none
    else if c1 ≠ '<' ∨ c2 ≠ '-' ∨ (c3 ≠ 'X' ∧ c3 ≠ 'O') then none
    else some { player := if c3 = 'X' then 1 else 2
              , square := c0.toNat - '0'.toNat }
  else none

/-- game_unparse_move (game.c lines 396-410): sprintf of the square,
then "<-", then "X" or "O". -/
def game_unparse_move (move : GAME_MOVE) : List Char :=
  Nat.toDigits 10 move.square ++ ('<' :: '-' :: [if move.player = 1 then 'X' else 'O'])

/-- Rendering of one board cell in game_unparse_state. -/
def cell_char (c : Nat) : Char :=
  if c = 0 then ' ' else if c = 1 then 'X' else 'O'

/-- game_unparse_state (game.c lines 253-292): three rows separated by
"-----" lines, then "It's <X/O>'s turn".  The apostrophe is written via
its code point. -/
def game_unparse_state (game : GAME) : List Char :=
  cell_char (cell game 0) :: '|' :: cell_char (cell game 1) :: '|' :: cell_char (cell game 2) ::
  '\n' :: '-' :: '-' :: '-' :: '-' :: '-' :: '\n' ::
  cell_char (cell game 3) :: '|' :: cell_char (cell game 4) :: '|' :: cell_char (cell game 5) ::
  '\n' :: '-' :: '-' :: '-' :: '-' :: '-' :: '\n' ::
  cell_char (cell game 6) :: '|' :: cell_char (cell game 7) :: '|' :: cell_char (cell game 8) ::
  '\n' :: 'I' :: 't' :: Char.ofNat 39 :: 's' :: ' ' ::
  (if game.turn_X ≠ 0 then 'X' else 'O') ::
  Char.ofNat 39 :: 's' :: ' ' :: 't' :: 'u' :: 'r' :: 'n' :: ['\n']

/-- Iterated game_apply_move, as the service loop performs one MOVE
request at a time. -/
def game_apply_moves (game : GAME) : List GAME_MOVE → Option GAME
  | [] => some game
  | move :: rest =>
    match game_apply_move game move with
    | none => none
    | some g1 => game_apply_moves g1 rest

/- ===================== C9: parse/unparse round trip ===================== -/

/-- A decimal digit string for squares 1..9 is the single digit character. -/
theorem toDigits_single (s : Nat) (h1 : 1 ≤ s) (h9 : s ≤ 9) :
    Nat.toDigits 10 s = [Char.ofNat (48 + s)] := by
  interval_cases s <;> rfl

/-- C9: parsing the string produced by unparsing a legal move, with a role
consistent with the mover (and a game whose turn agrees with that role),
returns a move with the same player and the same square. -/
theorem parse_unparse_roundtrip (game : GAME) (move : GAME_MOVE) (role : GAME_ROLE)
    (h1 : 1 ≤ move.square) (h9 : move.square ≤ 9)
    (hrole : (move.player = 1 ∧ role = GAME_ROLE.FIRST_PLAYER_ROLE ∧ game.turn_X ≠ 0) ∨
             (move.player = 2 ∧ role = GAME_ROLE.SECOND_PLAYER_ROLE ∧ game.turn_X = 0)) :
    game_parse_move game role (game_unparse_move move) = some move := by
  obtain ⟨p, s⟩ := move
  simp only at h1 h9
  rcases hrole with ⟨hp, hr, ht⟩ | ⟨hp, hr, ht⟩ <;>
    simp only at hp <;> subst hp <;> subst hr <;>
    simp only [game_unparse_move, toDigits_single s h1 h9] <;>
    interval_cases s <;>
    simp [game_parse_move, ht]

/-- Witness for the round-trip theorem at the concrete move 5 by X. -/
theorem parse_unparse_roundtrip_witness :
    game_parse_move game_create GAME_ROLE.FIRST_PLAYER_ROLE
      (game_unparse_move { player := 1, square := 5 }) =
      some { player := 1, square := 5 } :=
  parse_unparse_roundtrip game_create { player := 1, square := 5 }
    GAME_ROLE.FIRST_PLAYER_ROLE (by decide) (by decide) (Or.inl ⟨rfl, rfl, by decide⟩)


/- ===================== C8: nine non-winning moves draw ===================== -/

/-- The win predicate as a function of the board alone. -/
def winb (b : List Nat) (player : Nat) : Bool :=
  (b.getD 0 0 == player && b.getD 1 0 == player && b.getD 2 0 == player) ||
  (b.getD 3 0 == player && b.getD 4 0 == player && b.getD 5 0 == player) ||
  (b.getD 6 0 == player && b.getD 7 0 == player && b.getD 8 0 == player) ||
  (b.getD 0 0 == player && b.getD 3 0 == player && b.getD 6 0 == player) ||
  (b.getD 1 0 == player && b.getD 4 0 == player && b.getD 7 0 == player) ||
  (b.getD 2 0 == player && b.getD 5 0 == player && b.getD 8 0 == player) ||
  (b.getD 0 0 == player && b.getD 4 0 == player && b.getD 8 0 == player) ||
  (b.getD 2 0 == player && b.getD 4 0 == player && b.getD 6 0 == player)

/-- The win predicate only reads the board. -/
theorem win_winb (g : GAME) (p : Nat) : win g p = winb g.board p := rfl

/-- Canonical form of game_apply_move: on success all the sequential
in-place updates of the C body amount to this single record. -/
theorem game_apply_move_eq (g : GAME) (m : GAME_MOVE) :
    game_apply_move g m =
    if m.square < 1 ∨ 9 < m.square ∨ cell g (m.square - 1) ≠ 0 ∨
       (m.player = 1 ∧ g.turn_X ≠ 1) ∨ (m.player = 2 ∧ g.turn_X ≠ 0) ∨
       g.terminated = true then
      none
    else
      some { turn_X := if g.turn_X ≠ 0 then 0 else 1
           , num_turns := g.num_turns + 1
           , board := g.board.set (m.square - 1) m.player
           , winner :=
               if winb (g.board.set (m.square - 1) m.player) 2 then GAME_ROLE.SECOND_PLAYER_ROLE
               else if winb (g.board.set (m.square - 1) m.player) 1 then GAME_ROLE.FIRST_PLAYER_ROLE
               else g.winner
           , terminated :=
               winb (g.board.set (m.square - 1) m.player) 1 ||
               winb (g.board.set (m.square - 1) m.player) 2 ||
               decide (9 ≤ g.num_turns + 1) } := by
  unfold game_apply_move
  split
  · rfl
  · simp only [win_winb]
    split_ifs <;> simp_all

/-- Facts about any successful move, in terms of the win checks on the
post-move game. -/
theorem apply_move_spec (g gf : GAME) (m : GAME_MOVE)
    (h : game_apply_move g m = some gf) :
    g.terminated = false ∧
    gf.num_turns = g.num_turns + 1 ∧
    gf.terminated = (win gf 1 || win gf 2 || decide (9 ≤ g.num_turns + 1)) ∧
    gf.winner = (if win gf 2 = true then GAME_ROLE.SECOND_PLAYER_ROLE
                 else if win gf 1 = true then GAME_ROLE.FIRST_PLAYER_ROLE
                 else g.winner) := by
  rw [game_apply_move_eq] at h
  split at h
  · exact absurd h (by simp)
  · rename_i hc
    simp only [not_or] at hc
    simp only [Option.some.injEq] at h
    subst h
    refine ⟨by simpa using hc.2.2.2.2.2, rfl, by simp [win_winb], by simp [win_winb]⟩

/-- Iterating successful moves adds the number of moves to num_turns. -/
theorem apply_moves_num_turns (ms : List GAME_MOVE) (g gf : GAME)
    (h : game_apply_moves g ms = some gf) :
    gf.num_turns = g.num_turns + ms.length := by
  induction ms generalizing g with
  | nil => simp [game_apply_moves] at h; simp [h]
  | cons m rest ih =>
    unfold game_apply_moves at h
    match hm : game_apply_move g m with
    | none => rw [hm] at h; exact absurd h (by simp)
    | some g1 =>
      rw [hm] at h
      have := apply_move_spec g g1 m hm
      have := ih g1 h
      simp only [List.length_cons]
      omega

/-- A nonempty successful run starts from a non-terminated game. -/
theorem apply_moves_not_term (ms : List GAME_MOVE) (g gf : GAME)
    (h : game_apply_moves g ms = some gf) (hne : ms ≠ []) :
    g.terminated = false := by
  match ms, hne with
  | m :: rest, _ =>
    unfold game_apply_moves at h
    match hm : game_apply_move g m with
    | none => rw [hm] at h; exact absurd h (by simp)
    | some g1 => exact (apply_move_spec g g1 m hm).1

/-- Along a successful run whose final board has no three in a row for
either player, the winner field keeps its initial value. -/
theorem apply_moves_winner (ms : List GAME_MOVE) (g gf : GAME)
    (h : game_apply_moves g ms = some gf)
    (h1 : win gf 1 = false) (h2 : win gf 2 = false) :
    gf.winner = g.winner := by
  induction ms generalizing g with
  | nil => simp [game_apply_moves] at h; simp [h]
  | cons m rest ih =>
    unfold game_apply_moves at h
    match hm : game_apply_move g m with
    | none => rw [hm] at h; exact absurd h (by simp)
    | some g1 =>
      rw [hm] at h
      have hspec := apply_move_spec g g1 m hm
      match rest, h with
      | [], h =>
        have hg : g1 = gf := by simpa [game_apply_moves] using h
        subst hg
        rw [hspec.2.2.2, h2, h1]
        simp
      | r :: rs, h =>
        have hterm : g1.terminated = false :=
          apply_moves_not_term (r :: rs) g1 gf h (by simp)
        have hw : g1.winner = g.winner := by
          rw [hspec.2.2.1] at hterm
          rw [hspec.2.2.2]
          rcases hw2 : win g1 2 with _ | _ <;> rcases hw1 : win g1 1 with _ | _ <;>
            simp_all
        rw [ih g1 h, hw]

/-- The move that brings num_turns to nine terminates the game. -/
theorem apply_moves_term_of_nine (ms : List GAME_MOVE) (g gf : GAME)
    (h : game_apply_moves g ms = some gf) (hne : ms ≠ [])
    (h9 : 9 ≤ gf.num_turns) : gf.terminated = true := by
  induction ms generalizing g with
  | nil => exact absurd rfl hne
  | cons m rest ih =>
    unfold game_apply_moves at h
    match hm : game_apply_move g m with
    | none => rw [hm] at h; exact absurd h (by simp)
    | some g1 =>
      rw [hm] at h
      match rest, h with
      | [], h =>
        have hg : g1 = gf := by simpa [game_apply_moves] using h
        subst hg
        have hspec := apply_move_spec g g1 m hm
        rw [hspec.2.2.1]
        rw [hspec.2.1] at h9
        simp [h9]
      | r :: rs, h => exact ih g1 h (by simp)

/-- The result value computed in the game-over branch of client_make_move
(client.c line 1101):
`int result = winner == NULL_ROLE ? 0.5 : winner == FIRST_PLAYER_ROLE ? 1 : 2;`
The C conditional expression has type double and assigning it to the int
`result` truncates, so the double 0.5 of the draw branch becomes 0. -/
def make_move_result (winner : GAME_ROLE) : Int :=
  if winner = GAME_ROLE.NULL_ROLE then 0
  else if winner = GAME_ROLE.FIRST_PLAYER_ROLE then 1 else 2

/-- Score assignment of player_post_result (player.c lines 180-195):
result 0 gives each player 0.5, result 1 gives 1:0, result 2 gives 0:1,
and any other result makes the function return without touching the
ratings (modelled as `none`).  Only the exact score assignment is
embedded; the subsequent Elo update is floating point and treated as the
external Rating Function of the specification. -/
def player_post_result_scores (result : Int) : Option (ℚ × ℚ) :=
  if result = 0 then some (1/2, 1/2)
  else if result = 1 then some (1, 0)
  else if result = 2 then some (0, 1)
  else none

/-- C8: nine legal moves from the initial game in which neither player
ends with three in a row leave the game terminated with winner NULL_ROLE
(a draw); the result value that client_make_move posts to the rating
function for that final game is outcome 0, which scores 0.5 for each
player. -/
theorem nine_moves_draw (ms : List GAME_MOVE) (gf : GAME)
    (h : game_apply_moves game_create ms = some gf) (hlen : ms.length = 9)
    (h1 : win gf 1 = false) (h2 : win gf 2 = false) :
    gf.terminated = true ∧
    game_get_winner (some gf) = GAME_ROLE.NULL_ROLE ∧
    make_move_result (game_get_winner (some gf)) = 0 ∧
    player_post_result_scores (make_move_result (game_get_winner (some gf))) =
      some (1/2, 1/2) := by
  have hne : ms ≠ [] := by intro hnil; rw [hnil] at hlen; simp at hlen
  have hterm : gf.terminated = true := by
    refine apply_moves_term_of_nine ms game_create gf h hne ?_
    have := apply_moves_num_turns ms game_create gf h
    rw [this, hlen]
    rfl
  have hwin : gf.winner = GAME_ROLE.NULL_ROLE := by
    have := apply_moves_winner ms game_create gf h h1 h2
    simpa [game_create] using this
  have hget : game_get_winner (some gf) = GAME_ROLE.NULL_ROLE := by
    simp [game_get_winner, hterm, hwin]
  refine ⟨hterm, hget, ?_, ?_⟩ <;> rw [hget] <;> rfl

/-- A concrete drawn sequence: X takes 1,3,4,5,8 and O takes 2,6,7,9. -/
def exDrawMoves : List GAME_MOVE :=
  [ { player := 1, square := 1 }, { player := 2, square := 2 }
  , { player := 1, square := 3 }, { player := 2, square := 6 }
  , { player := 1, square := 4 }, { player := 2, square := 7 }
  , { player := 1, square := 5 }, { player := 2, square := 9 }
  , { player := 1, square := 8 } ]

/-- The game reached by the concrete drawn sequence. -/
def exDrawFinal : GAME :=
  (game_apply_moves game_create exDrawMoves).getD game_create

/-- Witness for the draw theorem at the concrete nine-move sequence. -/
theorem nine_moves_draw_witness :
    exDrawFinal.terminated = true ∧
    game_get_winner (some exDrawFinal) = GAME_ROLE.NULL_ROLE ∧
    make_move_result (game_get_winner (some exDrawFinal)) = 0 ∧
    player_post_result_scores (make_move_result (game_get_winner (some exDrawFinal))) =
      some (1/2, 1/2) :=
  nine_moves_draw exDrawMoves exDrawFinal (by decide) (by decide) (by decide) (by decide)

/- ===================== Invitation: src/invitation.c ===================== -/

/-- INVITATION_STATE enumeration (invitation.c comment block). -/
inductive INVITATION_STATE where
  | INV_OPEN_STATE
  | INV_ACCEPTED_STATE
  | INV_CLOSED_STATE
deriving DecidableEq, Repr

/-- struct invitation (invitation.c lines 9-18).  The source and target
CLIENT pointers become client identifiers into the server state; the
mutex is not modelled. -/
structure INVITATION where
  ref_count : Int
  sender : Nat
  recipient : Nat
  source_role : GAME_ROLE
  target_role : GAME_ROLE
  game : Option GAME
  state : INVITATION_STATE
deriving DecidableEq, Repr

/-- inv_create (invitation.c lines 65-95): a fresh OPEN invitation with
reference count one.  Allocation failure is not modelled; the client_ref
calls on source and target adjust counts that this embedding does not
track. -/
def inv_create (source target : Nat) (source_role target_role : GAME_ROLE) : INVITATION :=
  { ref_count := 1
  , sender := source
  , recipient := target
  , source_role := source_role
  , target_role := target_role
  , game := none
  , state := INVITATION_STATE.INV_OPEN_STATE }

/-- inv_get_source (invitation.c). -/
def inv_get_source (inv : INVITATION) : Nat := inv.sender

/-- inv_get_target (invitation.c). -/
def inv_get_target (inv : INVITATION) : Nat := inv.recipient

/-- inv_get_source_role (invitation.c). -/
def inv_get_source_role (inv : INVITATION) : GAME_ROLE := inv.source_role

/-- inv_get_target_role (invitation.c). -/
def inv_get_target_role (inv : INVITATION) : GAME_ROLE := inv.target_role

/-- inv_get_game (invitation.c). -/
def inv_get_game (inv : INVITATION) : Option GAME := inv.game

/-- inv_accept (invitation.c lines 238-257): error unless OPEN, otherwise
move to ACCEPTED and create the game.  C mutates in place and returns
0 or -1; here the (possibly unchanged) invitation is returned alongside
the code.  game_create cannot fail in the embedding. -/
def inv_accept (inv : INVITATION) : Int × INVITATION :=
  if inv.state ≠ INVITATION_STATE.INV_OPEN_STATE then (-1, inv)
  else (0, { inv with state := INVITATION_STATE.INV_ACCEPTED_STATE, game := some game_create })

/-- inv_close (invitation.c lines 273-291): NULL_ROLE is rejected when a
game exists; error unless OPEN or ACCEPTED; when ACCEPTED with a game the
game is resigned by the given role (the resignation's own error code is
ignored by the C code), and the state becomes CLOSED. -/
def inv_close (inv : INVITATION) (role : GAME_ROLE) : Int × INVITATION :=
  if role = GAME_ROLE.NULL_ROLE ∧ inv.game ≠ none then (-1, inv)
  else if inv.state ≠ INVITATION_STATE.INV_OPEN_STATE ∧
          inv.state ≠ INVITATION_STATE.INV_ACCEPTED_STATE then (-1, inv)
  else
    let inv1 :=
      if inv.state = INVITATION_STATE.INV_ACCEPTED_STATE ∧ inv.game ≠ none then
        { inv with game := match inv.game with
            | some g => some ((game_resign g role).getD g)
            | none => none }
      else inv
    (0, { inv1 with state := INVITATION_STATE.INV_CLOSED_STATE })

/- ===================== C3: invitation state transitions ===================== -/

/-- C3: invitation state transitions are only along the adjacent edges
OPEN-to-ACCEPTED (inv_accept) and OPEN-to-CLOSED / ACCEPTED-to-CLOSED
(inv_close); accept fails leaving the invitation unchanged unless it is
OPEN, close fails leaving it unchanged unless it is OPEN or ACCEPTED, and
a close with NULL_ROLE can only succeed when the invitation has no game. -/
theorem inv_state_transitions (inv : INVITATION) (role : GAME_ROLE) :
    ((inv_accept inv).1 = 0 ↔ inv.state = INVITATION_STATE.INV_OPEN_STATE) ∧
    ((inv_accept inv).1 = 0 →
      (inv_accept inv).2.state = INVITATION_STATE.INV_ACCEPTED_STATE) ∧
    ((inv_accept inv).1 ≠ 0 → (inv_accept inv).2 = inv) ∧
    ((inv_close inv role).1 = 0 →
      (inv.state = INVITATION_STATE.INV_OPEN_STATE ∨
       inv.state = INVITATION_STATE.INV_ACCEPTED_STATE) ∧
      (inv_close inv role).2.state = INVITATION_STATE.INV_CLOSED_STATE) ∧
    ((inv_close inv role).1 ≠ 0 → (inv_close inv role).2 = inv) ∧
    (role = GAME_ROLE.NULL_ROLE → (inv_close inv role).1 = 0 → inv.game = none) := by
  unfold inv_accept inv_close
  split_ifs <;> simp_all

/-- Witness for the invitation transition theorem at a concrete OPEN
invitation, closed with NULL_ROLE while no game exists. -/
theorem inv_state_transitions_witness :
    (inv_accept (inv_create 0 1 GAME_ROLE.FIRST_PLAYER_ROLE GAME_ROLE.SECOND_PLAYER_ROLE)).1
        = 0 ∧
    (inv_accept (inv_create 0 1 GAME_ROLE.FIRST_PLAYER_ROLE GAME_ROLE.SECOND_PLAYER_ROLE)).2.state
        = INVITATION_STATE.INV_ACCEPTED_STATE ∧
    (inv_create 0 1 GAME_ROLE.FIRST_PLAYER_ROLE GAME_ROLE.SECOND_PLAYER_ROLE).game = none := by
  have h := inv_state_transitions
    (inv_create 0 1 GAME_ROLE.FIRST_PLAYER_ROLE GAME_ROLE.SECOND_PLAYER_ROLE)
    GAME_ROLE.NULL_ROLE
  refine ⟨h.1.mpr (by decide), h.2.1 (h.1.mpr (by decide)), ?_⟩
  exact h.2.2.2.2.2 rfl (by decide)

/- ===================== Wire protocol: src/protocol.c ===================== -/

/-- Modelled from the spec: packet-type byte values.  The protocol header
defining the JEUX_PACKET_TYPE enumeration is not among the sources; the
values follow the specification's message-type table (requests LOGIN
through RESIGN, then responses ACK through ENDED) with the unused value
0 named JEUX_NO_PKT as server.c uses it. -/
def JEUX_NO_PKT : Nat := 0

/-- Modelled from the spec: LOGIN request type value. -/
def JEUX_LOGIN_PKT : Nat := 1

/-- Modelled from the spec: USERS request type value. -/
def JEUX_USERS_PKT : Nat := 2

/-- Modelled from the spec: INVITE request type value. -/
def JEUX_INVITE_PKT : Nat := 3

/-- Modelled from the spec: REVOKE request type value. -/
def JEUX_REVOKE_PKT : Nat := 4

/-- Modelled from the spec: ACCEPT request type value. -/
def JEUX_ACCEPT_PKT : Nat := 5

/-- Modelled from the spec: DECLINE request type value. -/
def JEUX_DECLINE_PKT : Nat := 6

/-- Modelled from the spec: MOVE request type value. -/
def JEUX_MOVE_PKT : Nat := 7

/-- Modelled from the spec: RESIGN request type value. -/
def JEUX_RESIGN_PKT : Nat := 8

/-- Modelled from the spec: ACK response type value. -/
def JEUX_ACK_PKT : Nat := 9

/-- Modelled from the spec: NACK response type value. -/
def JEUX_NACK_PKT : Nat := 10

/-- Modelled from the spec: INVITED notification type value. -/
def JEUX_INVITED_PKT : Nat := 11

/-- Modelled from the spec: REVOKED notification type value. -/
def JEUX_REVOKED_PKT : Nat := 12

/-- Modelled from the spec: ACCEPTED notification type value. -/
def JEUX_ACCEPTED_PKT : Nat := 13

/-- Modelled from the spec: DECLINED notification type value. -/
def JEUX_DECLINED_PKT : Nat := 14

/-- Modelled from the spec: MOVED notification type value. -/
def JEUX_MOVED_PKT : Nat := 15

/-- Modelled from the spec: RESIGNED notification type value. -/
def JEUX_RESIGNED_PKT : Nat := 16

/-- Modelled from the spec: ENDED notification type value. -/
def JEUX_ENDED_PKT : Nat := 17

/-- JEUX_PACKET_HEADER (protocol.c comment block, 12-byte wire header).
Byte-order conversions are elided: all fields are kept as host-order
naturals, and the timestamps (written by proto_send_packet, never read)
are carried along as zeros. -/
structure JEUX_PACKET_HEADER where
  type : Nat
  id : Nat
  role : Nat
  size : Nat
  timestamp_sec : Nat
  timestamp_nsec : Nat
deriving DecidableEq, Repr

/-- make_packet (client.c lines 328-337): a zeroed header with the given
type and size. -/
def make_packet (t : Nat) (size : Nat) : JEUX_PACKET_HEADER :=
  { type := t, id := 0, role := 0, size := size, timestamp_sec := 0, timestamp_nsec := 0 }

/-- construct_packet (server.c lines 93-99): same zeroed header. -/
def construct_packet (t : Nat) (size : Nat) : JEUX_PACKET_HEADER :=
  { type := t, id := 0, role := 0, size := size, timestamp_sec := 0, timestamp_nsec := 0 }

/-- A packet that reached a client's socket.  `dest` is the identifier of
the receiving client (the fd argument of proto_send_packet). -/
structure SentPacket where
  dest : Nat
  hdr : JEUX_PACKET_HEADER
  payload : Option (List Char)
deriving DecidableEq, Repr

/-- proto_send_packet (protocol.c lines 52-90): rejects a zero size with
data or a nonzero size without data, otherwise the frame goes out whole.
Transport write failures are not modelled. -/
def proto_send_packet (dest : Nat) (hdr : JEUX_PACKET_HEADER)
    (data : Option (List Char)) : Option SentPacket :=
  if (hdr.size = 0 ∧ data ≠ none) ∨ (hdr.size ≠ 0 ∧ data = none) then none
  else some { dest := dest, hdr := hdr, payload := data }

/-- client_send_packet (client.c lines 311-325): serialised send through
proto_send_packet; returns the C result code and the frames that hit the
wire. -/
def client_send_packet (dest : Nat) (hdr : JEUX_PACKET_HEADER)
    (data : Option (List Char)) : Int × List SentPacket :=
  match proto_send_packet dest hdr data with
  | none => (-1, [])
  | some p => (0, [p])

/-- client_send_ack (client.c lines 349-361). -/
def client_send_ack (dest : Nat) (data : Option (List Char)) (datalen : Nat) :
    Int × List SentPacket :=
  client_send_packet dest (make_packet JEUX_ACK_PKT datalen) data

/-- client_send_nack (client.c lines 370-382). -/
def client_send_nack (dest : Nat) : Int × List SentPacket :=
  client_send_packet dest (make_packet JEUX_NACK_PKT 0) none

/- ===================== Players and clients: src/player.c, src/client.c ===================== -/

/-- struct player (player.c lines 40-45).  The rating is a C double that
starts at PLAYER_INITIAL_RATING = 1500 and is only changed by the
floating-point Elo update, which is external to this embedding, so the
field carries the integral initial value. -/
structure PLAYER where
  username : List Char
  rating : Int
  ref_count : Int
deriving DecidableEq, Repr

/-- player_create (player.c lines 57-86). -/
def player_create (name : List Char) : PLAYER :=
  { username := name, rating := 1500, ref_count := 1 }

/-- struct invitation_node (client.c lines 43-48): one handle in a
client's doubly linked invitation list; the links become list order. -/
structure INVITATION_NODE where
  invitation : Nat
  id : Nat
deriving DecidableEq, Repr

/-- struct client (client.c lines 50-57).  The fd is the client's
identity in this embedding; the mutex and the client reference count are
not modelled. -/
structure CLIENT where
  fd : Nat
  logged_in : Bool
  player : Option Nat
  invitations_head : List INVITATION_NODE
deriving DecidableEq, Repr

/-- The whole server: the registered clients (client registry order),
the live INVITATION objects and PLAYER objects addressed by identifiers
standing for their C pointers, allocation counters for fresh identifiers,
and the log of results posted to player_post_result. -/
structure ServerState where
  clients : List (Nat × CLIENT)
  invs : List (Nat × INVITATION)
  players : List (Nat × PLAYER)
  next_iid : Nat
  next_pid : Nat
  rating_posts : List (Option Nat × Option Nat × Int)
deriving DecidableEq, Repr

/-- Dereference a CLIENT pointer. -/
def getClient (st : ServerState) (cid : Nat) : Option CLIENT :=
  st.clients.lookup cid

/-- Write through a CLIENT pointer. -/
def updClient (st : ServerState) (cid : Nat) (f : CLIENT → CLIENT) : ServerState :=
  { st with clients := st.clients.map (fun p => if p.1 = cid then (p.1, f p.2) else p) }

/-- Dereference an INVITATION pointer. -/
def getInv (st : ServerState) (iid : Nat) : Option INVITATION :=
  st.invs.lookup iid

/-- Write through an INVITATION pointer. -/
def updInv (st : ServerState) (iid : Nat) (f : INVITATION → INVITATION) : ServerState :=
  { st with invs := st.invs.map (fun p => if p.1 = iid then (p.1, f p.2) else p) }

/-- Write through a PLAYER pointer. -/
def updPlayer (st : ServerState) (pid : Nat) (f : PLAYER → PLAYER) : ServerState :=
  { st with players := st.players.map (fun p => if p.1 = pid then (p.1, f p.2) else p) }

/-- player_ref (player.c lines 97-106). -/
def player_ref (st : ServerState) (pid : Nat) : ServerState :=
  updPlayer st pid (fun p => { p with ref_count := p.ref_count + 1 })

/-- player_unref (player.c lines 119-135): a NULL pointer is ignored;
otherwise the count drops and the player is freed when it reaches zero. -/
def player_unref (st : ServerState) (pid? : Option Nat) : ServerState :=
  match pid? with
  | none => st
  | some pid =>
    match st.players.lookup pid with
    | none => st
    | some p =>
      if p.ref_count - 1 = 0 then
        { st with players := st.players.filter (fun q => q.1 ≠ pid) }
      else updPlayer st pid (fun q => { q with ref_count := q.ref_count - 1 })

/-- inv_ref as a heap operation (invitation.c lines 106-117). -/
def inv_ref_st (st : ServerState) (iid : Nat) : ServerState :=
  updInv st iid (fun inv => { inv with ref_count := inv.ref_count + 1 })

/-- inv_unref as a heap operation (invitation.c lines 130-158): the
invitation is freed when its count reaches zero (the accompanying
client_unref and game_unref adjust counts this embedding does not
track). -/
def inv_unref_st (st : ServerState) (iid : Nat) : ServerState :=
  match st.invs.lookup iid with
  | none => st
  | some inv =>
    if inv.ref_count - 1 = 0 then
      { st with invs := st.invs.filter (fun q => q.1 ≠ iid) }
    else updInv st iid (fun q => { q with ref_count := q.ref_count - 1 })

/-- client_get_player (client.c lines 278-284). -/
def client_get_player (c : CLIENT) : Option Nat :=
  if c.logged_in then c.player else none

/-- player_get_name through a PLAYER pointer (player.c lines 143-147);
the C NULL case yields the empty string here. -/
def player_get_name (st : ServerState) (pid : Nat) : List Char :=
  match st.players.lookup pid with
  | some p => p.username
  | none => []

/-- player_get_rating through a PLAYER pointer (player.c lines 155-159). -/
def player_get_rating (st : ServerState) (pid : Nat) : Int :=
  match st.players.lookup pid with
  | some p => p.rating
  | none => -1

/-- creg_all_players (client_registry.c): the players of the currently
logged-in clients, in registry order.  The MAX_CLIENTS bound on the copy
loop never binds because registration caps the registry at 64 clients. -/
def creg_all_players (st : ServerState) : List Nat :=
  st.clients.filterMap (fun p => client_get_player p.2)

/-- check_if_other_clients_logged_in_with_same_player (client.c lines
177-188, same body as the server.c copy): scans the registry snapshot
for a logged-in player of the given name. -/
def check_if_other_clients_logged_in_with_same_player (st : ServerState)
    (name : List Char) : Bool :=
  (creg_all_players st).any (fun pid => player_get_name st pid == name)

/-- creg_lookup (client_registry.c): first registered client logged in
under the given username. -/
def creg_lookup (st : ServerState) (user : List Char) : Option Nat :=
  (st.clients.find? (fun p =>
    match client_get_player p.2 with
    | some pid => player_get_name st pid == user
    | none => false)).map (fun p => p.1)

/-- preg_register (player_registry.c lines 189-234): return the existing
player of that name with one more reference, or create a fresh one that
the registry also retains (count two). -/
def preg_register (st : ServerState) (name : List Char) : Nat × ServerState :=
  match st.players.find? (fun p => p.2.username == name) with
  | some q => (q.1, player_ref st q.1)
  | none =>
    let pl := player_create name
    let pl := { pl with ref_count := pl.ref_count + 1 }
    let pid := st.next_pid
    (pid, { st with players := (pid, pl) :: st.players, next_pid := pid + 1 })

/-- client_login (client.c lines 202-218). -/
def client_login (st : ServerState) (cid : Nat) (pid : Nat) : Int × ServerState :=
  match getClient st cid with
  | none => (-1, st)
  | some c =>
    if c.logged_in = true ∨
       check_if_other_clients_logged_in_with_same_player st (player_get_name st pid) = true then
      (-1, st)
    else
      let st := updClient st cid (fun c => { c with logged_in := true, player := some pid })
      (0, player_ref st pid)

/-- id_exists_in_client_invitation (client.c lines 60-73). -/
def id_exists_in_client_invitation (client : CLIENT) (id : Nat) : Bool :=
  client.invitations_head.any (fun n => n.id == id)

/-- The loop of find_lowest_id_availalble, with fuel standing in for the
C while(1): the loop stops at the first unused id, which exists within
list-length + 1 steps. -/
def find_lowest_go (client : CLIENT) (i : Nat) : Nat → Nat
  | 0 => i
  | fuel + 1 =>
    if id_exists_in_client_invitation client i then find_lowest_go client (i + 1) fuel
    else i

/-- find_lowest_id_availalble (client.c lines 75-85), keeping the C
function's spelling. -/
def find_lowest_id_availalble (client : CLIENT) : Nat :=
  find_lowest_go client 0 (client.invitations_head.length + 1)

/-- client_add_invitation (client.c lines 396-429).  `alloc_ok` stands
for the malloc of the new list node; every caller except the rollback
analysis passes `true`. -/
def client_add_invitation (st : ServerState) (cid : Nat) (iid : Nat)
    (alloc_ok : Bool) : Int × ServerState :=
  match getClient st cid with
  | none => (-1, st)
  | some c =>
    if alloc_ok = false then (-1, st)
    else
      let newid := find_lowest_id_availalble c
      let st := updClient st cid
        (fun c => { c with invitations_head :=
          { invitation := iid, id := newid } :: c.invitations_head })
      (Int.ofNat newid, inv_ref_st st iid)

/-- Unlinking of the first node holding a given invitation, as the while
loop of client_remove_invitation does on the doubly linked list. -/
def removeFirstInv : List INVITATION_NODE → Nat → List INVITATION_NODE
  | [], _ => []
  | n :: rest, iid => if n.invitation = iid then rest else n :: removeFirstInv rest iid

/-- client_remove_invitation (client.c lines 441-487): drop the first
node holding the invitation, release the reference, and return the
node's id. -/
def client_remove_invitation (st : ServerState) (cid : Nat) (iid : Nat) :
    Int × ServerState :=
  match getClient st cid with
  | none => (-1, st)
  | some c =>
    match c.invitations_head.find? (fun n => n.invitation == iid) with
    | none => (-1, st)
    | some node =>
      let st := updClient st cid
        (fun c => { c with invitations_head := removeFirstInv c.invitations_head iid })
      (Int.ofNat node.id, inv_unref_st st iid)

/-- client_make_invitation (client.c lines 504-544): create the OPEN
invitation, insert it into the source's list and then the target's list,
and send INVITED to the target carrying the target's local id, the
target's role and the source's username.  `ok1`/`ok2` stand for the node
mallocs of the two insertions.  As in C, a failed target insertion only
releases the creation reference, and a failed INVITED send returns -1
without releasing it. -/
def client_make_invitation (st : ServerState) (source target : Nat)
    (source_role target_role : GAME_ROLE) (ok1 ok2 : Bool) :
    Int × ServerState × List SentPacket :=
  let iid := st.next_iid
  let inv := inv_create source target source_role target_role
  let st := { st with invs := (iid, inv) :: st.invs, next_iid := iid + 1 }
  let r1 := client_add_invitation st source iid ok1
  if r1.1 = -1 then (-1, inv_unref_st r1.2 iid, [])
  else
    let r2 := client_add_invitation r1.2 target iid ok2
    if r2.1 = -1 then (-1, inv_unref_st r2.2 iid, [])
    else
      let source_name :=
        match getClient r2.2 source with
        | some c =>
          match client_get_player c with
          | some pid => player_get_name r2.2 pid
          | none => []
        | none => []
      let invited_pkt := { make_packet JEUX_INVITED_PKT source_name.length with
        id := r2.1.toNat, role := game_role_code target_role }
      let s := client_send_packet target invited_pkt (some source_name)
      if s.1 = -1 then (-1, r2.2, [])
      else (r1.1, inv_unref_st r2.2 iid, s.2)

/-- Append one result to the log of player_post_result calls
(player.c lines 180-212): the two player pointers and the result code.
The Elo rating arithmetic itself is the external Rating Function. -/
def post_result (st : ServerState) (p1 p2 : Option Nat) (result : Int) : ServerState :=
  { st with rating_posts := st.rating_posts ++ [(p1, p2, result)] }

/-- client_revoke_invitation (client.c lines 563-627).  Heap lookups that
C performs through always-valid pointers return -1 here when the
identifier is dangling; such states are not reachable from the service
loop. -/
def client_revoke_invitation (st : ServerState) (cid : Nat) (id : Nat) :
    Int × ServerState × List SentPacket :=
  match getClient st cid with
  | none => (-1, st, [])
  | some c =>
    match c.invitations_head.find? (fun n => n.id == id) with
    | none => (-1, st, [])
    | some node =>
      match getInv st node.invitation with
      | none => (-1, st, [])
      | some inv =>
        if inv_get_game inv ≠ none then (-1, st, [])
        else if inv_get_source inv ≠ cid then (-1, st, [])
        else
          let r1 := client_remove_invitation st cid node.invitation
          if r1.1 = -1 then (-1, r1.2, [])
          else
            let r2 := client_remove_invitation r1.2 (inv_get_target inv) node.invitation
            if r2.1 = -1 then (-1, r2.2, [])
            else
              let revoked_pkt := { make_packet JEUX_REVOKED_PKT 0 with id := r2.1.toNat }
              let s := client_send_packet (inv_get_target inv) revoked_pkt none
              if s.1 = -1 then (-1, r2.2, [])
              else (0, r2.2, s.2)

/-- client_decline_invitation (client.c lines 645-713): symmetric to
revoke, target-only, DECLINED goes to the source with the source's id. -/
def client_decline_invitation (st : ServerState) (cid : Nat) (id : Nat) :
    Int × ServerState × List SentPacket :=
  match getClient st cid with
  | none => (-1, st, [])
  | some c =>
    match c.invitations_head.find? (fun n => n.id == id) with
    | none => (-1, st, [])
    | some node =>
      match getInv st node.invitation with
      | none => (-1, st, [])
      | some inv =>
        if inv_get_game inv ≠ none then (-1, st, [])
        else if inv_get_target inv ≠ cid then (-1, st, [])
        else
          let r1 := client_remove_invitation st (inv_get_target inv) node.invitation
          if r1.1 = -1 then (-1, r1.2, [])
          else
            let r2 := client_remove_invitation r1.2 (inv_get_source inv) node.invitation
            if r2.1 = -1 then (-1, r2.2, [])
            else
              let declined_pkt := { make_packet JEUX_DECLINED_PKT 0 with id := r2.1.toNat }
              let s := client_send_packet (inv_get_source inv) declined_pkt none
              if s.1 ≠ 0 then (-1, r2.2, [])
              else (0, r2.2, s.2)

/-- client_accept_invitation (client.c lines 738-831).  The fourth
component is the caller's `*strp` variable: the C source-plays-FIRST
branch executes `strp = NULL;`, assigning the local parameter instead of
writing through it, so in that branch the caller's variable keeps the
initial value it was called with (`strp0`). -/
def client_accept_invitation (st : ServerState) (cid : Nat) (id : Nat)
    (strp0 : Option (List Char)) :
    Int × ServerState × List SentPacket × Option (List Char) :=
  match getClient st cid with
  | none => (-1, st, [], strp0)
  | some c =>
    match c.invitations_head.find? (fun n => n.id == id) with
    | none => (-1, st, [], strp0)
    | some node =>
      match getInv st node.invitation with
      | none => (-1, st, [], strp0)
      | some inv =>
        if inv_get_target inv ≠ cid then (-1, st, [], strp0)
        else if inv_get_game inv ≠ none then (-1, st, [], strp0)
        else
          let a := inv_accept inv
          if a.1 = -1 then (-1, st, [], strp0)
          else
            let st := updInv st node.invitation (fun _ => a.2)
            match getClient st (inv_get_source inv) with
            | none => (-1, st, [], strp0)
            | some src =>
              match src.invitations_head.find? (fun n => n.invitation == node.invitation) with
              | none => (-1, st, [], strp0)
              | some source_node =>
                let accepted_pkt := { make_packet JEUX_ACCEPTED_PKT 0 with id := source_node.id }
                if inv_get_source_role a.2 = GAME_ROLE.FIRST_PLAYER_ROLE then
                  let state_str := game_unparse_state ((inv_get_game a.2).getD game_create)
                  let pkt := { accepted_pkt with size := state_str.length }
                  let s := client_send_packet (inv_get_source inv) pkt (some state_str)
                  if s.1 ≠ 0 then (-1, st, [], strp0)
                  else (0, st, s.2, strp0)
                else
                  let state_str := game_unparse_state ((inv_get_game a.2).getD game_create)
                  let s := client_send_packet (inv_get_source inv) accepted_pkt none
                  if s.1 ≠ 0 then (-1, st, [], some state_str)
                  else (0, st, s.2, some state_str)

/-- client_resign_game (client.c lines 848-954): close the invitation
with the resigner's role, notify the opponent with RESIGNED then both
players with ENDED carrying the winner, remove the invitation from both
lists, and post outcome 2 when the source resigned, 1 when the target
did. -/
def client_resign_game (st : ServerState) (cid : Nat) (id : Nat) :
    Int × ServerState × List SentPacket :=
  match getClient st cid with
  | none => (-1, st, [])
  | some c =>
    match c.invitations_head.find? (fun n => n.id == id) with
    | none => (-1, st, [])
    | some node =>
      match getInv st node.invitation with
      | none => (-1, st, [])
      | some inv =>
        let source := inv_get_source inv
        let target := inv_get_target inv
        if inv_get_game inv = none ∨ (source ≠ cid ∧ target ≠ cid) then (-1, st, [])
        else
          let client_role := if cid = source then inv_get_source_role inv
                             else inv_get_target_role inv
          let cl := inv_close inv client_role
          if cl.1 = -1 then (-1, st, [])
          else
            let st := updInv st node.invitation (fun _ => cl.2)
            let opponent := if cid = source then target else source
            match getClient st opponent with
            | none => (-1, st, [])
            | some oc =>
              match oc.invitations_head.find? (fun n => n.invitation == node.invitation) with
              | none => (-1, st, [])
              | some opponent_node =>
                let resigned_pkt := { make_packet JEUX_RESIGNED_PKT 0 with
                  id := opponent_node.id }
                let s1 := client_send_packet opponent resigned_pkt none
                if s1.1 ≠ 0 then (-1, st, [])
                else
                  let winner := game_get_winner (inv_get_game cl.2)
                  let opp_ended_pkt := { make_packet JEUX_ENDED_PKT 0 with
                    id := opponent_node.id, role := game_role_code winner }
                  let s2 := client_send_packet opponent opp_ended_pkt none
                  if s2.1 ≠ 0 then (-1, st, s1.2)
                  else
                    let cli_ended_pkt := { make_packet JEUX_ENDED_PKT 0 with
                      id := id, role := game_role_code winner }
                    let s3 := client_send_packet cid cli_ended_pkt none
                    if s3.1 ≠ 0 then (-1, st, s1.2 ++ s2.2)
                    else
                      let r1 := client_remove_invitation st source node.invitation
                      if r1.1 = -1 then (-1, r1.2, s1.2 ++ s2.2 ++ s3.2)
                      else
                        let r2 := client_remove_invitation r1.2 target node.invitation
                        if r2.1 = -1 then (-1, r2.2, s1.2 ++ s2.2 ++ s3.2)
                        else
                          let p1 := (getClient r2.2 source).bind client_get_player
                          let p2 := (getClient r2.2 target).bind client_get_player
                          let st := post_result r2.2 p1 p2 (if cid = source then 2 else 1)
                          (0, st, s1.2 ++ s2.2 ++ s3.2)

/-- client_make_move (client.c lines 980-1109): parse the move against
the game with the mover's role, apply it, send MOVED to the opponent,
and when the game is now over send ENDED to both players, remove the
invitation from both lists and post the truncated result value. -/
def client_make_move (st : ServerState) (cid : Nat) (id : Nat) (move : List Char) :
    Int × ServerState × List SentPacket :=
  match getClient st cid with
  | none => (-1, st, [])
  | some c =>
    match c.invitations_head.find? (fun n => n.id == id) with
    | none => (-1, st, [])
    | some node =>
      match getInv st node.invitation with
      | none => (-1, st, [])
      | some inv =>
        let source := inv_get_source inv
        let target := inv_get_target inv
        match inv_get_game inv with
        | none => (-1, st, [])
        | some game =>
          let client_role := if cid = source then inv_get_source_role inv
                             else inv_get_target_role inv
          match game_parse_move game client_role move with
          | none => (-1, st, [])
          | some game_move =>
            match game_apply_move game game_move with
            | none => (-1, st, [])
            | some g1 =>
              let st := updInv st node.invitation (fun i => { i with game := some g1 })
              let opponent := if cid = source then target else source
              match getClient st opponent with
              | none => (-1, st, [])
              | some oc =>
                match oc.invitations_head.find? (fun n => n.invitation == node.invitation) with
                | none => (-1, st, [])
                | some opponent_node =>
                  let state_str := game_unparse_state g1
                  let moved_pkt := { make_packet JEUX_MOVED_PKT state_str.length with
                    id := opponent_node.id }
                  let s1 := client_send_packet opponent moved_pkt (some state_str)
                  if s1.1 ≠ 0 then (-1, st, [])
                  else if game_is_over g1 then
                    let winner := game_get_winner (some g1)
                    let opp_ended_pkt := { make_packet JEUX_ENDED_PKT 0 with
                      id := opponent_node.id, role := game_role_code winner }
                    let s2 := client_send_packet opponent opp_ended_pkt none
                    if s2.1 ≠ 0 then (-1, st, s1.2)
                    else
                      let cli_ended_pkt := { make_packet JEUX_ENDED_PKT 0 with
                        id := id, role := game_role_code winner }
                      let s3 := client_send_packet cid cli_ended_pkt none
                      if s3.1 ≠ 0 then (-1, st, s1.2 ++ s2.2)
                      else
                        let r1 := client_remove_invitation st source node.invitation
                        if r1.1 = -1 then (-1, r1.2, s1.2 ++ s2.2 ++ s3.2)
                        else
                          let r2 := client_remove_invitation r1.2 target node.invitation
                          if r2.1 = -1 then (-1, r2.2, s1.2 ++ s2.2 ++ s3.2)
                          else
                            let result := make_move_result winner
                            let pc := (getClient r2.2 (if cid = source then source else target)).bind
                              client_get_player
                            let po := (getClient r2.2 (if cid = source then target else source)).bind
                              client_get_player
                            let st := post_result r2.2 pc po result
                            (0, st, s1.2 ++ s2.2 ++ s3.2)
                  else (0, st, s1.2)

/-- The logout loop of client_logout (client.c lines 243-263): walk the
handles captured at entry; per handle resign when its invitation has a
game, otherwise revoke when this client is the source, otherwise
decline.  A handle whose invitation is no longer live is skipped (the C
loop would read freed memory there; unreachable from the service loop). -/
def logout_cascade (st : ServerState) (cid : Nat) :
    List INVITATION_NODE → ServerState × List SentPacket
  | [] => (st, [])
  | node :: rest =>
    let step :=
      match getInv st node.invitation with
      | none => (st, ([] : List SentPacket))
      | some inv =>
        if inv_get_game inv ≠ none then
          let r := client_resign_game st cid node.id
          (r.2.1, r.2.2)
        else if inv_get_source inv = cid then
          let r := client_revoke_invitation st cid node.id
          (r.2.1, r.2.2)
        else
          let r := client_decline_invitation st cid node.id
          (r.2.1, r.2.2)
    let rest_r := logout_cascade step.1 cid rest
    (rest_r.1, step.2 ++ rest_r.2)

/-- client_logout (client.c lines 232-265): error when not logged in;
otherwise release the player reference and run the cascade over the
invitation list.  The logged_in flag and the player field are left as
they were, exactly as in the C body. -/
def client_logout (st : ServerState) (cid : Nat) : Int × ServerState × List SentPacket :=
  match getClient st cid with
  | none => (-1, st, [])
  | some c =>
    if c.logged_in = false then (-1, st, [])
    else
      let st := player_unref st c.player
      let r := logout_cascade st cid c.invitations_head
      (0, r.1, r.2)

/- ===================== Service loop: src/hw5/src/server.c ===================== -/

/-- Decimal rendering of an int rating, as snprintf %d produces it. -/
def int_chars (n : Int) : List Char :=
  if n < 0 then '-' :: Nat.toDigits 10 (-n).toNat else Nat.toDigits 10 n.toNat

/-- One line of the USERS response payload (server.c line 212):
username, TAB, rating, newline. -/
def users_line (st : ServerState) (pid : Nat) : List Char :=
  player_get_name st pid ++ '\t' :: (int_chars (player_get_rating st pid) ++ ['\n'])

/-- The USERS response payload (server.c lines 199-232): the lines for
the registry's player snapshot concatenated in order. -/
def users_blob (st : ServerState) : List Char :=
  ((creg_all_players st).map (fun pid => users_line st pid)).flatten

/-- One iteration of the jeux_client_service loop (server.c lines
149-401): receive one frame and dispatch on its type.  `cid` identifies
the serviced client, `logged_in` is the thread-local flag of the loop.
The result carries the updated flag, the updated server state and every
packet that the iteration put on any client's wire.  Frame types outside
the switch cases fall through with no action, exactly as in the C
switch, which has no default case. -/
structure DispatchResult where
  logged_in : Bool
  st : ServerState
  sends : List SentPacket
deriving DecidableEq, Repr

def jeux_dispatch (st : ServerState) (cid : Nat) (logged_in : Bool)
    (hdr : JEUX_PACKET_HEADER) (payload : List Char) : DispatchResult :=
  if hdr.type = JEUX_NO_PKT then
    { logged_in := logged_in, st := st, sends := [] }
  else if hdr.type = JEUX_LOGIN_PKT then
    if logged_in = false then
      if check_if_other_clients_logged_in_with_same_player st payload then
        { logged_in := logged_in, st := st, sends := (client_send_nack cid).2 }
      else
        if (client_login (preg_register st payload).2 cid (preg_register st payload).1).1 = 0 then
          { logged_in := true
          , st := (client_login (preg_register st payload).2 cid (preg_register st payload).1).2
          , sends := (client_send_ack cid none 0).2 }
        else
          { logged_in := logged_in
          , st := (client_login (preg_register st payload).2 cid (preg_register st payload).1).2
          , sends := (client_send_nack cid).2 }
    else
      { logged_in := logged_in, st := st, sends := (client_send_nack cid).2 }
  else if hdr.type = JEUX_USERS_PKT then
    if logged_in = false then
      { logged_in := logged_in, st := st, sends := (client_send_nack cid).2 }
    else
      { logged_in := logged_in, st := st
      , sends := (client_send_ack cid (some (users_blob st)) (users_blob st).length).2 }
  else if hdr.type = JEUX_INVITE_PKT then
    if logged_in = false then
      { logged_in := logged_in, st := st, sends := (client_send_nack cid).2 }
    else
      match creg_lookup st payload with
      | none => { logged_in := logged_in, st := st, sends := (client_send_nack cid).2 }
      | some target_client =>
        if target_client = cid then
          { logged_in := logged_in, st := st, sends := (client_send_nack cid).2 }
        else if hdr.role = 1 then
          if (client_make_invitation st cid target_client
                GAME_ROLE.SECOND_PLAYER_ROLE GAME_ROLE.FIRST_PLAYER_ROLE true true).1 = -1 then
            { logged_in := logged_in
            , st := (client_make_invitation st cid target_client
                GAME_ROLE.SECOND_PLAYER_ROLE GAME_ROLE.FIRST_PLAYER_ROLE true true).2.1
            , sends := (client_make_invitation st cid target_client
                GAME_ROLE.SECOND_PLAYER_ROLE GAME_ROLE.FIRST_PLAYER_ROLE true true).2.2 ++
                (client_send_nack cid).2 }
          else
            { logged_in := logged_in
            , st := (client_make_invitation st cid target_client
                GAME_ROLE.SECOND_PLAYER_ROLE GAME_ROLE.FIRST_PLAYER_ROLE true true).2.1
            , sends := (client_make_invitation st cid target_client
                GAME_ROLE.SECOND_PLAYER_ROLE GAME_ROLE.FIRST_PLAYER_ROLE true true).2.2 ++
                (client_send_packet cid
                  { construct_packet JEUX_ACK_PKT 0 with
                    id := (client_make_invitation st cid target_client
                      GAME_ROLE.SECOND_PLAYER_ROLE GAME_ROLE.FIRST_PLAYER_ROLE true true).1.toNat }
                  none).2 }
        else if hdr.role = 2 then
          if (client_make_invitation st cid target_client
                GAME_ROLE.FIRST_PLAYER_ROLE GAME_ROLE.SECOND_PLAYER_ROLE true true).1 = -1 then
            { logged_in := logged_in
            , st := (client_make_invitation st cid target_client
                GAME_ROLE.FIRST_PLAYER_ROLE GAME_ROLE.SECOND_PLAYER_ROLE true true).2.1
            , sends := (client_make_invitation st cid target_client
                GAME_ROLE.FIRST_PLAYER_ROLE GAME_ROLE.SECOND_PLAYER_ROLE true true).2.2 ++
                (client_send_nack cid).2 }
          else
            { logged_in := logged_in
            , st := (client_make_invitation st cid target_client
                GAME_ROLE.FIRST_PLAYER_ROLE GAME_ROLE.SECOND_PLAYER_ROLE true true).2.1
            , sends := (client_make_invitation st cid target_client
                GAME_ROLE.FIRST_PLAYER_ROLE GAME_ROLE.SECOND_PLAYER_ROLE true true).2.2 ++
                (client_send_packet cid
                  { construct_packet JEUX_ACK_PKT 0 with
                    id := (client_make_invitation st cid target_client
                      GAME_ROLE.FIRST_PLAYER_ROLE GAME_ROLE.SECOND_PLAYER_ROLE true true).1.toNat }
                  none).2 }
        else
          { logged_in := logged_in, st := st, sends := (client_send_nack cid).2 }
  else if hdr.type = JEUX_REVOKE_PKT then
    if logged_in = false then
      { logged_in := logged_in, st := st, sends := (client_send_nack cid).2 }
    else
      if (client_revoke_invitation st cid hdr.id).1 = -1 then
        { logged_in := logged_in, st := (client_revoke_invitation st cid hdr.id).2.1
        , sends := (client_revoke_invitation st cid hdr.id).2.2 ++ (client_send_nack cid).2 }
      else
        { logged_in := logged_in, st := (client_revoke_invitation st cid hdr.id).2.1
        , sends := (client_revoke_invitation st cid hdr.id).2.2 ++ (client_send_ack cid none 0).2 }
  else if hdr.type = JEUX_DECLINE_PKT then
    if logged_in = false then
      { logged_in := logged_in, st := st, sends := (client_send_nack cid).2 }
    else
      if (client_decline_invitation st cid hdr.id).1 = -1 then
        { logged_in := logged_in, st := (client_decline_invitation st cid hdr.id).2.1
        , sends := (client_decline_invitation st cid hdr.id).2.2 ++ (client_send_nack cid).2 }
      else
        { logged_in := logged_in, st := (client_decline_invitation st cid hdr.id).2.1
        , sends := (client_decline_invitation st cid hdr.id).2.2 ++ (client_send_ack cid none 0).2 }
  else if hdr.type = JEUX_ACCEPT_PKT then
    if logged_in = false then
      { logged_in := logged_in, st := st, sends := (client_send_nack cid).2 }
    else
      if (client_accept_invitation st cid hdr.id none).1 = -1 then
        { logged_in := logged_in, st := (client_accept_invitation st cid hdr.id none).2.1
        , sends := (client_accept_invitation st cid hdr.id none).2.2.1 ++
            (client_send_nack cid).2 }
      else
        { logged_in := logged_in, st := (client_accept_invitation st cid hdr.id none).2.1
        , sends := (client_accept_invitation st cid hdr.id none).2.2.1 ++
            (client_send_packet cid
              (match (client_accept_invitation st cid hdr.id none).2.2.2 with
               | some str =>
                 { construct_packet JEUX_ACK_PKT 0 with id := hdr.id, size := str.length }
               | none => { construct_packet JEUX_ACK_PKT 0 with id := hdr.id })
              (client_accept_invitation st cid hdr.id none).2.2.2).2 }
  else if hdr.type = JEUX_MOVE_PKT then
    if logged_in = false then
      { logged_in := logged_in, st := st, sends := (client_send_nack cid).2 }
    else
      if (client_make_move st cid hdr.id payload).1 = -1 then
        { logged_in := logged_in, st := (client_make_move st cid hdr.id payload).2.1
        , sends := (client_make_move st cid hdr.id payload).2.2 ++ (client_send_nack cid).2 }
      else
        { logged_in := logged_in, st := (client_make_move st cid hdr.id payload).2.1
        , sends := (client_make_move st cid hdr.id payload).2.2 ++ (client_send_ack cid none 0).2 }
  else if hdr.type = JEUX_RESIGN_PKT then
    if logged_in = false then
      { logged_in := logged_in, st := st, sends := (client_send_nack cid).2 }
    else
      if (client_resign_game st cid hdr.id).1 = -1 then
        { logged_in := logged_in, st := (client_resign_game st cid hdr.id).2.1
        , sends := (client_resign_game st cid hdr.id).2.2 ++ (client_send_nack cid).2 }
      else
        { logged_in := logged_in, st := (client_resign_game st cid hdr.id).2.1
        , sends := (client_resign_game st cid hdr.id).2.2 ++ (client_send_ack cid none 0).2 }
  else
    { logged_in := logged_in, st := st, sends := [] }

/- ===================== C5: lowest-free-id assignment ===================== -/

/-- id_exists_in_client_invitation decides membership of the id among
the list's ids. -/
theorem id_exists_iff (c : CLIENT) (k : Nat) :
    id_exists_in_client_invitation c k = true ↔
    k ∈ c.invitations_head.map (fun n => n.id) := by
  simp only [id_exists_in_client_invitation, List.any_eq_true, List.mem_map, beq_iff_eq]

/-- Some id up to the list length is unused (pigeonhole over the list). -/
theorem find_lowest_exists (c : CLIENT) :
    ∃ k, k ≤ c.invitations_head.length ∧
      id_exists_in_client_invitation c k = false := by
  by_contra hno
  push_neg at hno
  have hall : ∀ k ∈ List.range (c.invitations_head.length + 1),
      k ∈ c.invitations_head.map (fun n => n.id) := by
    intro k hk
    have hk' : k ≤ c.invitations_head.length := by
      have := List.mem_range.mp hk; omega
    have := hno k hk'
    exact (id_exists_iff c k).mp (by
      rcases hb : id_exists_in_client_invitation c k with _ | _
      · exact absurd hb this
      · rfl)
  have hsub := List.subperm_of_subset (List.nodup_range _) hall
  have hlen := hsub.length_le
  simp only [List.length_range, List.length_map] at hlen
  omega

/-- The find_lowest loop returns the first unused id at or after its
start, provided an unused id lies within its fuel. -/
theorem find_lowest_go_spec (c : CLIENT) (fuel : Nat) :
    ∀ i, (∃ k, i ≤ k ∧ k < i + fuel ∧ id_exists_in_client_invitation c k = false) →
    id_exists_in_client_invitation c (find_lowest_go c i fuel) = false ∧
    ∀ j, i ≤ j → j < find_lowest_go c i fuel →
      id_exists_in_client_invitation c j = true := by
  induction fuel with
  | zero =>
    intro i ⟨k, hk1, hk2, _⟩
    omega
  | succ fuel ih =>
    intro i h
    unfold find_lowest_go
    rcases hex : id_exists_in_client_invitation c i with _ | _
    · rw [if_neg (by simp [hex])]
      exact ⟨hex, fun j hj1 hj2 => by omega⟩
    · rw [if_pos (by simp [hex])]
      have h' : ∃ k, i + 1 ≤ k ∧ k < (i + 1) + fuel ∧
          id_exists_in_client_invitation c k = false := by
        obtain ⟨k, hk1, hk2, hk3⟩ := h
        refine ⟨k, ?_, by omega, hk3⟩
        rcases Nat.eq_or_lt_of_le hk1 with heq | hlt
        · subst heq
          exact absurd hk3 (by simp [hex])
        · omega
      obtain ⟨h1, h2⟩ := ih (i + 1) h'
      refine ⟨h1, fun j hj1 hj2 => ?_⟩
      rcases Nat.eq_or_lt_of_le hj1 with heq | hlt
      · exact heq ▸ hex
      · exact h2 j hlt hj2

/-- find_lowest_id_availalble returns the smallest id that is unused in
the client's list. -/
theorem find_lowest_id_spec (c : CLIENT) :
    id_exists_in_client_invitation c (find_lowest_id_availalble c) = false ∧
    ∀ j, j < find_lowest_id_availalble c →
      id_exists_in_client_invitation c j = true := by
  obtain ⟨k, hk1, hk2⟩ := find_lowest_exists c
  have := find_lowest_go_spec c (c.invitations_head.length + 1) 0
    ⟨k, by omega, by omega, hk2⟩
  exact ⟨this.1, fun j hj => this.2 j (by omega) hj⟩

/-- The lists of handles reachable by the add and remove operations of a
client's invitation list, starting from the empty list of a fresh
client: client_add_invitation prepends a node carrying the id chosen by
find_lowest_id_availalble, and client_remove_invitation unlinks the
first node of a given invitation. -/
inductive InvListEvolves : List INVITATION_NODE → Prop where
  | nil : InvListEvolves []
  | add (l : List INVITATION_NODE) (iid : Nat) (c : CLIENT) :
      InvListEvolves l → c.invitations_head = l →
      InvListEvolves ({ invitation := iid, id := find_lowest_id_availalble c } :: l)
  | remove (l : List INVITATION_NODE) (iid : Nat) :
      InvListEvolves l → InvListEvolves (removeFirstInv l iid)

/-- removeFirstInv keeps a sublist. -/
theorem removeFirstInv_sublist (l : List INVITATION_NODE) (iid : Nat) :
    (removeFirstInv l iid).Sublist l := by
  induction l with
  | nil => simp [removeFirstInv]
  | cons n rest ih =>
    unfold removeFirstInv
    split
    · exact List.sublist_cons_self n rest
    · exact ih.cons₂ n

/-- C5: a handle added by client_add_invitation receives exactly the
smallest id unused in the client's list at that moment, and every list
built from adds and removes therefore has mutually distinct ids. -/
theorem client_add_invitation_lowest_id (st : ServerState) (cid iid : Nat) (c : CLIENT)
    (hc : getClient st cid = some c) :
    (client_add_invitation st cid iid true).1 =
      Int.ofNat (find_lowest_id_availalble c) ∧
    id_exists_in_client_invitation c (find_lowest_id_availalble c) = false ∧
    (∀ j, j < find_lowest_id_availalble c →
      id_exists_in_client_invitation c j = true) ∧
    (∀ l, InvListEvolves l → (l.map (fun n => n.id)).Nodup) := by
  have hspec := find_lowest_id_spec c
  refine ⟨by simp [client_add_invitation, hc], hspec.1, hspec.2, ?_⟩
  intro l hl
  induction hl with
  | nil => simp
  | add l iid c hl hc ih =>
    simp only [List.map_cons, List.nodup_cons]
    refine ⟨?_, ih⟩
    have := (find_lowest_id_spec c).1
    intro hmem
    rw [← hc] at hmem
    have := (id_exists_iff c _).mpr hmem
    simp_all
  | remove l iid hl ih =>
    exact List.Nodup.sublist ((removeFirstInv_sublist l iid).map (fun n => n.id)) ih

/-- Witness: adding to a client whose list holds ids 0, 1 and 3 assigns
id 2. -/
theorem client_add_invitation_lowest_id_witness :
    (client_add_invitation
      { clients := [(0, { fd := 4, logged_in := true, player := some 0
                        , invitations_head :=
                            [ { invitation := 10, id := 0 }
                            , { invitation := 11, id := 1 }
                            , { invitation := 12, id := 3 } ] })]
      , invs := [], players := [], next_iid := 13, next_pid := 1, rating_posts := [] }
      0 13 true).1 = Int.ofNat 2 := by
  have h := client_add_invitation_lowest_id
    { clients := [(0, { fd := 4, logged_in := true, player := some 0
                      , invitations_head :=
                          [ { invitation := 10, id := 0 }
                          , { invitation := 11, id := 1 }
                          , { invitation := 12, id := 3 } ] })]
    , invs := [], players := [], next_iid := 13, next_pid := 1, rating_posts := [] }
    0 13
    { fd := 4, logged_in := true, player := some 0
    , invitations_head :=
        [ { invitation := 10, id := 0 }
        , { invitation := 11, id := 1 }
        , { invitation := 12, id := 3 } ] }
    (by decide)
  rw [h.1]
  decide

/- ===================== Heap commutation lemmas ===================== -/

/-- Cons step of List.lookup at the matching key. -/
theorem lookup_cons_self {β : Type} (k : Nat) (b : β) (l : List (Nat × β)) :
    List.lookup k ((k, b) :: l) = some b := by
  simp [List.lookup]

/-- Cons step of List.lookup at a different key. -/
theorem lookup_cons_ne {β : Type} (k a : Nat) (b : β) (l : List (Nat × β)) (h : k ≠ a) :
    List.lookup k ((a, b) :: l) = List.lookup k l := by
  have hb : (k == a) = false := by simpa using h
  simp [List.lookup, hb]

/-- Lookup after a keyed in-place update. -/
theorem lookup_map_update {β : Type} (l : List (Nat × β)) (k : Nat) (f : β → β) :
    (l.map (fun p => if p.1 = k then (p.1, f p.2) else p)).lookup k =
    (l.lookup k).map f := by
  induction l with
  | nil => rfl
  | cons hd tl ih =>
    obtain ⟨a, b⟩ := hd
    simp only [List.map_cons]
    by_cases hak : a = k
    · subst hak
      rw [if_pos rfl, lookup_cons_self, lookup_cons_self]
      rfl
    · rw [if_neg hak, lookup_cons_ne _ _ _ _ (fun h => hak h.symm),
        lookup_cons_ne _ _ _ _ (fun h => hak h.symm)]
      exact ih

/-- Lookup of a different key after a keyed in-place update. -/
theorem lookup_map_update_other {β : Type} (l : List (Nat × β)) (k k' : Nat) (f : β → β)
    (hne : k' ≠ k) :
    (l.map (fun p => if p.1 = k then (p.1, f p.2) else p)).lookup k' = l.lookup k' := by
  induction l with
  | nil => rfl
  | cons hd tl ih =>
    obtain ⟨a, b⟩ := hd
    simp only [List.map_cons]
    by_cases hak : a = k
    · subst hak
      rw [if_pos rfl, lookup_cons_ne _ _ _ _ hne, lookup_cons_ne _ _ _ _ hne]
      exact ih
    · rw [if_neg hak]
      by_cases hka : k' = a
      · subst hka
        rw [lookup_cons_self, lookup_cons_self]
      · rw [lookup_cons_ne _ _ _ _ hka, lookup_cons_ne _ _ _ _ hka]
        exact ih

/-- updClient through getClient on the same client. -/
theorem getClient_updClient (st : ServerState) (cid : Nat) (f : CLIENT → CLIENT) :
    getClient (updClient st cid f) cid = (getClient st cid).map f :=
  lookup_map_update st.clients cid f

/-- updClient leaves other clients alone. -/
theorem getClient_updClient_other (st : ServerState) (cid cid' : Nat) (f : CLIENT → CLIENT)
    (hne : cid' ≠ cid) :
    getClient (updClient st cid f) cid' = getClient st cid' :=
  lookup_map_update_other st.clients cid cid' f hne

/-- inv_ref_st does not touch the clients. -/
theorem getClient_inv_ref (st : ServerState) (iid cid : Nat) :
    getClient (inv_ref_st st iid) cid = getClient st cid := rfl

/-- inv_unref_st does not touch the clients. -/
theorem getClient_inv_unref (st : ServerState) (iid cid : Nat) :
    getClient (inv_unref_st st iid) cid = getClient st cid := by
  unfold inv_unref_st
  split
  · rfl
  · split <;> rfl

/- ===================== C7: failed target insertion is not rolled back ===================== -/

/-- Helper: a nonnegative int is never -1. -/
theorem int_ofNat_ne_neg_one (n : Nat) : ¬ (Int.ofNat n = -1) := by
  intro h
  have : (n : Int) = -1 := h
  omega

/-- client_add_invitation with a failed node allocation changes nothing. -/
theorem client_add_invitation_alloc_false (st : ServerState) (cid iid : Nat) :
    client_add_invitation st cid iid false = (-1, st) := by
  unfold client_add_invitation
  cases getClient st cid <;> simp

/-- client_add_invitation on a valid client with a successful allocation:
the new node with the lowest free id is pushed onto the list and the
invitation gains a reference. -/
theorem client_add_invitation_some (st : ServerState) (cid iid : Nat) (c : CLIENT)
    (hc : getClient st cid = some c) :
    client_add_invitation st cid iid true =
      (Int.ofNat (find_lowest_id_availalble c),
       inv_ref_st (updClient st cid (fun c2 => { c2 with invitations_head :=
         { invitation := iid, id := find_lowest_id_availalble c } :: c2.invitations_head }))
         iid) := by
  unfold client_add_invitation
  rw [hc]
  simp

/-- C7 (amended): when making a new invitation the handle is inserted
into the source's list first and then into the target's; if the
insertion into the target's list fails, the operation reports failure
and releases the creation reference, but the handle already inserted
into the source's list stays there, while the target's list is left as
it was. -/
theorem make_invitation_no_rollback (st : ServerState) (source target : Nat)
    (source_role target_role : GAME_ROLE) (cs : CLIENT)
    (hc : getClient st source = some cs) :
    (client_make_invitation st source target source_role target_role true false).1 = -1 ∧
    getClient (client_make_invitation st source target source_role target_role true false).2.1
        source =
      some { cs with invitations_head :=
        { invitation := st.next_iid, id := find_lowest_id_availalble cs } ::
          cs.invitations_head } ∧
    (target ≠ source →
      getClient (client_make_invitation st source target source_role target_role true false).2.1
        target = getClient st target) := by
  have hc1 : getClient { st with
      invs := (st.next_iid, inv_create source target source_role target_role) :: st.invs
      , next_iid := st.next_iid + 1 } source = some cs := hc
  simp only [client_make_invitation]
  rw [client_add_invitation_some _ _ _ cs hc1, client_add_invitation_alloc_false]
  refine ⟨?_, ?_, fun hne => ?_⟩
  · rw [if_neg (int_ofNat_ne_neg_one _), if_pos rfl]
  · rw [if_neg (int_ofNat_ne_neg_one _), if_pos rfl]
    rw [getClient_inv_unref, getClient_inv_ref, getClient_updClient, hc1]
    rfl
  · rw [if_neg (int_ofNat_ne_neg_one _), if_pos rfl]
    rw [getClient_inv_unref, getClient_inv_ref, getClient_updClient_other _ _ _ _ hne]
    rfl

/-- A concrete server with two logged-in clients and no invitations. -/
def exStC7 : ServerState :=
  { clients :=
      [ (0, { fd := 5, logged_in := true, player := some 0, invitations_head := [] })
      , (1, { fd := 6, logged_in := true, player := some 1, invitations_head := [] }) ]
  , invs := []
  , players :=
      [ (0, { username := ['a'], rating := 1500, ref_count := 2 })
      , (1, { username := ['b'], rating := 1500, ref_count := 2 }) ]
  , next_iid := 0, next_pid := 2, rating_posts := [] }

/-- Counterexample to C7 as stated: when the insertion into the target's
list fails, the creation is not rolled back; the source's list, empty
before the call, still holds a handle for the failed invitation
afterwards. -/
theorem make_invitation_rollback_counterexample :
    (client_make_invitation exStC7 0 1
      GAME_ROLE.FIRST_PLAYER_ROLE GAME_ROLE.SECOND_PLAYER_ROLE true false).1 = -1 ∧
    (getClient exStC7 0).map (fun c => c.invitations_head) = some [] ∧
    (getClient (client_make_invitation exStC7 0 1
      GAME_ROLE.FIRST_PLAYER_ROLE GAME_ROLE.SECOND_PLAYER_ROLE true false).2.1 0).map
        (fun c => c.invitations_head) = some [{ invitation := 0, id := 0 }] := by
  decide

/-- Witness for the amended C7 theorem at the concrete two-client
server. -/
theorem make_invitation_no_rollback_witness :
    (client_make_invitation exStC7 0 1
      GAME_ROLE.FIRST_PLAYER_ROLE GAME_ROLE.SECOND_PLAYER_ROLE true false).1 = -1 ∧
    getClient (client_make_invitation exStC7 0 1
      GAME_ROLE.FIRST_PLAYER_ROLE GAME_ROLE.SECOND_PLAYER_ROLE true false).2.1 1 =
      getClient exStC7 1 := by
  have h := make_invitation_no_rollback exStC7 0 1
    GAME_ROLE.FIRST_PLAYER_ROLE GAME_ROLE.SECOND_PLAYER_ROLE
    { fd := 5, logged_in := true, player := some 0, invitations_head := [] } (by decide)
  exact ⟨h.1, h.2.2 (by decide)⟩

/- ===================== C6: logout semantics ===================== -/

/-- A concrete server with one logged-in client and no invitations; the
client and the registry each hold a reference to the player. -/
def exStC6 : ServerState :=
  { clients :=
      [ (0, { fd := 7, logged_in := true, player := some 0, invitations_head := [] }) ]
  , invs := []
  , players := [ (0, { username := ['a'], rating := 1500, ref_count := 2 }) ]
  , next_iid := 0, next_pid := 1, rating_posts := [] }

/-- C6 evaluation at the failing input: client_logout never clears the
logged-in flag, so a second logout after a successful one is not a
no-op: it succeeds again, releases the Player reference a second time
(here driving the count from 2 to 1 and then to 0, freeing the player),
and leaves the session still marked logged in.  Logout of a session that
is not logged in does return an error and change nothing. -/
theorem client_logout_double_logout :
    (client_logout exStC6 0).1 = 0 ∧
    ((client_logout exStC6 0).2.1.players.lookup 0).map (fun p => p.ref_count) = some 1 ∧
    (getClient (client_logout exStC6 0).2.1 0).map (fun c => c.logged_in) = some true ∧
    (client_logout (client_logout exStC6 0).2.1 0).1 = 0 ∧
    (client_logout (client_logout exStC6 0).2.1 0).2.1.players.lookup 0 = none ∧
    (client_logout
      { clients := [ (0, { fd := 7, logged_in := false, player := none
                         , invitations_head := [] }) ]
      , invs := [], players := [], next_iid := 0, next_pid := 0, rating_posts := [] } 0) =
      (-1, { clients := [ (0, { fd := 7, logged_in := false, player := none
                              , invitations_head := [] }) ]
           , invs := [], players := [], next_iid := 0, next_pid := 0, rating_posts := [] }
          , []) := by
  decide

/- ===================== C2: login gates everything else ===================== -/

/-- C2: before login, LOGIN is processed (on a passing name check and a
successful client_login the flag flips and an ACK goes out) while every
other request type draws a NACK and leaves the state untouched; after
login, a further LOGIN draws a NACK and leaves the state, and hence the
session's login binding, untouched. -/
theorem dispatch_login_gating (st : ServerState) (cid : Nat)
    (hdr : JEUX_PACKET_HEADER) (payload : List Char) :
    (hdr.type = JEUX_USERS_PKT ∨ hdr.type = JEUX_INVITE_PKT ∨
     hdr.type = JEUX_REVOKE_PKT ∨ hdr.type = JEUX_ACCEPT_PKT ∨
     hdr.type = JEUX_DECLINE_PKT ∨ hdr.type = JEUX_MOVE_PKT ∨
     hdr.type = JEUX_RESIGN_PKT →
      jeux_dispatch st cid false hdr payload =
        { logged_in := false, st := st, sends := (client_send_nack cid).2 }) ∧
    (hdr.type = JEUX_LOGIN_PKT →
      check_if_other_clients_logged_in_with_same_player st payload = false →
      (client_login (preg_register st payload).2 cid (preg_register st payload).1).1 = 0 →
      jeux_dispatch st cid false hdr payload =
        { logged_in := true
        , st := (client_login (preg_register st payload).2 cid (preg_register st payload).1).2
        , sends := (client_send_ack cid none 0).2 }) ∧
    (hdr.type = JEUX_LOGIN_PKT →
      jeux_dispatch st cid true hdr payload =
        { logged_in := true, st := st, sends := (client_send_nack cid).2 }) := by
  refine ⟨?_, ?_, ?_⟩
  · rintro (h | h | h | h | h | h | h) <;>
      simp [jeux_dispatch, h, JEUX_NO_PKT, JEUX_LOGIN_PKT, JEUX_USERS_PKT, JEUX_INVITE_PKT,
        JEUX_REVOKE_PKT, JEUX_ACCEPT_PKT, JEUX_DECLINE_PKT, JEUX_MOVE_PKT, JEUX_RESIGN_PKT]
  · intro h hchk hlog
    simp [jeux_dispatch, h, JEUX_NO_PKT, JEUX_LOGIN_PKT, hchk, hlog]
  · intro h
    simp [jeux_dispatch, h, JEUX_NO_PKT, JEUX_LOGIN_PKT]

/-- Witness for the gating theorem: a USERS frame from a session that
has not logged in draws a NACK and changes nothing, and a LOGIN frame
from a logged-in session draws a NACK and changes nothing. -/
theorem dispatch_login_gating_witness :
    jeux_dispatch exStC6 0 false
      { type := 2, id := 0, role := 0, size := 0, timestamp_sec := 0, timestamp_nsec := 0 }
      [] =
      { logged_in := false, st := exStC6, sends := (client_send_nack 0).2 } ∧
    jeux_dispatch exStC6 0 true
      { type := 1, id := 0, role := 0, size := 5, timestamp_sec := 0, timestamp_nsec := 0 }
      ['a'] =
      { logged_in := true, st := exStC6, sends := (client_send_nack 0).2 } := by
  have h1 := dispatch_login_gating exStC6 0
    { type := 2, id := 0, role := 0, size := 0, timestamp_sec := 0, timestamp_nsec := 0 } []
  have h2 := dispatch_login_gating exStC6 0
    { type := 1, id := 0, role := 0, size := 5, timestamp_sec := 0, timestamp_nsec := 0 } ['a']
  exact ⟨h1.1 (Or.inl (by decide)), h2.2.2 (by decide)⟩

/- ===================== C10: no self-invitations ===================== -/

/-- Every invitation live after a step either existed before with the
same two sessions, or is a fresh one between the listed source and
target.  `invPairsPreserved` is the special case with no fresh
invitations. -/
def invPairsPreserved (st st' : ServerState) : Prop :=
  ∀ iid inv', getInv st' iid = some inv' →
    ∃ inv, getInv st iid = some inv ∧
      inv.sender = inv'.sender ∧ inv.recipient = inv'.recipient

theorem invPairs_refl (st : ServerState) : invPairsPreserved st st :=
  fun _ inv' h => ⟨inv', h, rfl, rfl⟩

theorem invPairs_trans {st1 st2 st3 : ServerState}
    (h12 : invPairsPreserved st1 st2) (h23 : invPairsPreserved st2 st3) :
    invPairsPreserved st1 st3 := by
  intro iid inv' h
  obtain ⟨inv2, h2, hs2, hr2⟩ := h23 iid inv' h
  obtain ⟨inv1, h1, hs1, hr1⟩ := h12 iid inv2 h2
  exact ⟨inv1, h1, hs1.trans hs2, hr1.trans hr2⟩

theorem invPairs_of_getInv_eq {st st' : ServerState}
    (h : ∀ iid, getInv st' iid = getInv st iid) : invPairsPreserved st st' :=
  fun iid inv' hl => ⟨inv', (h iid) ▸ hl, rfl, rfl⟩

/-- updClient does not touch the invitations. -/
theorem invPairs_updClient (st : ServerState) (cid : Nat) (f : CLIENT → CLIENT) :
    invPairsPreserved st (updClient st cid f) :=
  invPairs_of_getInv_eq (fun _ => rfl)

/-- updPlayer does not touch the invitations. -/
theorem invPairs_updPlayer (st : ServerState) (pid : Nat) (f : PLAYER → PLAYER) :
    invPairsPreserved st (updPlayer st pid f) :=
  invPairs_of_getInv_eq (fun _ => rfl)

/-- player_ref does not touch the invitations. -/
theorem invPairs_player_ref (st : ServerState) (pid : Nat) :
    invPairsPreserved st (player_ref st pid) :=
  invPairs_updPlayer st pid _

/-- player_unref does not touch the invitations. -/
theorem invPairs_player_unref (st : ServerState) (pid? : Option Nat) :
    invPairsPreserved st (player_unref st pid?) := by
  apply invPairs_of_getInv_eq
  intro iid
  unfold player_unref
  split
  · rfl
  · split
    · rfl
    · split <;> rfl

/-- post_result does not touch the invitations. -/
theorem invPairs_post_result (st : ServerState) (p1 p2 : Option Nat) (result : Int) :
    invPairsPreserved st (post_result st p1 p2 result) :=
  invPairs_of_getInv_eq (fun _ => rfl)

/-- Dropping every entry of one key makes that key unfindable. -/
theorem lookup_filter_key_self {β : Type} (l : List (Nat × β)) (iid : Nat) :
    (l.filter (fun q => q.1 ≠ iid)).lookup iid = none := by
  induction l with
  | nil => rfl
  | cons hd tl ih =>
    obtain ⟨a, b⟩ := hd
    by_cases hai : a = iid
    · subst hai
      rw [List.filter_cons, if_neg (by simp)]
      exact ih
    · rw [List.filter_cons, if_pos (by simp [hai]),
        lookup_cons_ne _ _ _ _ (fun h => hai h.symm)]
      exact ih

/-- Lookup after dropping every entry of one key agrees with the
original list on every other key. -/
theorem lookup_filter_key {β : Type} (l : List (Nat × β)) (iid k : Nat) (v : β)
    (h : (l.filter (fun q => q.1 ≠ iid)).lookup k = some v) : l.lookup k = some v := by
  induction l with
  | nil => simp [List.filter] at h
  | cons hd tl ih =>
    obtain ⟨a, b⟩ := hd
    by_cases hai : a = iid
    · subst hai
      rw [List.filter_cons, if_neg (by simp)] at h
      by_cases hk : k = a
      · subst hk
        rw [lookup_filter_key_self] at h
        exact absurd h (by simp)
      · rw [lookup_cons_ne _ _ _ _ hk]
        exact ih h
    · rw [List.filter_cons, if_pos (by simp [hai])] at h
      by_cases hk : k = a
      · subst hk
        rw [lookup_cons_self] at h
        rw [lookup_cons_self]
        exact h
      · rw [lookup_cons_ne _ _ _ _ hk] at h
        rw [lookup_cons_ne _ _ _ _ hk]
        exact ih h

/-- getInv after updInv at the same key. -/
theorem getInv_updInv_self (st : ServerState) (iid : Nat) (f : INVITATION → INVITATION) :
    getInv (updInv st iid f) iid = (getInv st iid).map f :=
  lookup_map_update st.invs iid f

/-- getInv after updInv at a different key. -/
theorem getInv_updInv_other (st : ServerState) (iid j : Nat) (f : INVITATION → INVITATION)
    (hne : j ≠ iid) : getInv (updInv st iid f) j = getInv st j :=
  lookup_map_update_other st.invs iid j f hne

/-- updInv by a function that keeps both session fields preserves the
invitation pairs. -/
theorem invPairs_updInv (st : ServerState) (iid : Nat) (f : INVITATION → INVITATION)
    (hf : ∀ i, (f i).sender = i.sender ∧ (f i).recipient = i.recipient) :
    invPairsPreserved st (updInv st iid f) := by
  intro j inv' h
  by_cases hj : j = iid
  · subst hj
    rw [getInv_updInv_self] at h
    cases hi : getInv st j with
    | none => rw [hi] at h; exact absurd h (by simp)
    | some i =>
      rw [hi] at h
      simp only [Option.map_some'] at h
      obtain rfl : f i = inv' := by simpa using h
      exact ⟨i, rfl, ((hf i).1).symm, ((hf i).2).symm⟩
  · rw [getInv_updInv_other _ _ _ _ hj] at h
    exact ⟨inv', h, rfl, rfl⟩

/-- updInv to a constant invitation that keeps the session fields of the
entry being replaced. -/
theorem invPairs_updInv_const (st : ServerState) (iid : Nat) (newInv inv : INVITATION)
    (hl : getInv st iid = some inv)
    (hs : newInv.sender = inv.sender) (hr : newInv.recipient = inv.recipient) :
    invPairsPreserved st (updInv st iid (fun _ => newInv)) := by
  intro j inv' h
  by_cases hj : j = iid
  · subst hj
    rw [getInv_updInv_self, hl] at h
    simp only [Option.map_some', Option.some.injEq] at h
    subst h
    exact ⟨inv, hl, hs.symm, hr.symm⟩
  · rw [getInv_updInv_other _ _ _ _ hj] at h
    exact ⟨inv', h, rfl, rfl⟩

/-- inv_ref_st preserves the invitation pairs. -/
theorem invPairs_inv_ref (st : ServerState) (iid : Nat) :
    invPairsPreserved st (inv_ref_st st iid) :=
  invPairs_updInv st iid _ (fun _ => ⟨rfl, rfl⟩)

/-- inv_unref_st preserves the invitation pairs. -/
theorem invPairs_inv_unref (st : ServerState) (iid : Nat) :
    invPairsPreserved st (inv_unref_st st iid) := by
  unfold inv_unref_st
  split
  · exact invPairs_refl st
  · split
    · intro j inv' h
      exact ⟨inv', lookup_filter_key st.invs iid j inv' h, rfl, rfl⟩
    · exact invPairs_updInv st iid _ (fun _ => ⟨rfl, rfl⟩)

/-- client_add_invitation preserves the invitation pairs. -/
theorem invPairs_client_add (st : ServerState) (cid iid : Nat) (ok : Bool) :
    invPairsPreserved st (client_add_invitation st cid iid ok).2 := by
  unfold client_add_invitation
  split
  · exact invPairs_refl st
  · split
    · exact invPairs_refl st
    · exact invPairs_trans (invPairs_updClient _ _ _) (invPairs_inv_ref _ _)

/-- client_remove_invitation preserves the invitation pairs. -/
theorem invPairs_client_remove (st : ServerState) (cid iid : Nat) :
    invPairsPreserved st (client_remove_invitation st cid iid).2 := by
  unfold client_remove_invitation
  split
  · exact invPairs_refl st
  · split
    · exact invPairs_refl st
    · exact invPairs_trans (invPairs_updClient _ _ _) (invPairs_inv_unref _ _)

/-- inv_accept keeps the two session fields. -/
theorem inv_accept_fields (inv : INVITATION) :
    (inv_accept inv).2.sender = inv.sender ∧ (inv_accept inv).2.recipient = inv.recipient := by
  unfold inv_accept
  split <;> simp

/-- inv_close keeps the two session fields. -/
theorem inv_close_fields (inv : INVITATION) (role : GAME_ROLE) :
    (inv_close inv role).2.sender = inv.sender ∧
    (inv_close inv role).2.recipient = inv.recipient := by
  unfold inv_close
  split_ifs <;> simp

/-- client_revoke_invitation preserves the invitation pairs. -/
theorem invPairs_revoke (st : ServerState) (cid id : Nat) :
    invPairsPreserved st (client_revoke_invitation st cid id).2.1 := by
  unfold client_revoke_invitation
  split
  · exact invPairs_refl st
  · split
    · exact invPairs_refl st
    · split
      · exact invPairs_refl st
      · split_ifs <;>
          first
            | exact invPairs_refl st
            | (dsimp only
               split_ifs <;>
                 first
                   | exact invPairs_client_remove _ _ _
                   | exact invPairs_trans (invPairs_client_remove _ _ _)
                       (invPairs_client_remove _ _ _))

/-- client_decline_invitation preserves the invitation pairs. -/
theorem invPairs_decline (st : ServerState) (cid id : Nat) :
    invPairsPreserved st (client_decline_invitation st cid id).2.1 := by
  unfold client_decline_invitation
  split
  · exact invPairs_refl st
  · split
    · exact invPairs_refl st
    · split
      · exact invPairs_refl st
      · split_ifs <;>
          first
            | exact invPairs_refl st
            | (dsimp only
               split_ifs <;>
                 first
                   | exact invPairs_client_remove _ _ _
                   | exact invPairs_trans (invPairs_client_remove _ _ _)
                       (invPairs_client_remove _ _ _))

/-- client_accept_invitation preserves the invitation pairs. -/
theorem invPairs_accept (st : ServerState) (cid id : Nat) (strp0 : Option (List Char)) :
    invPairsPreserved st (client_accept_invitation st cid id strp0).2.1 := by
  unfold client_accept_invitation
  split
  · exact invPairs_refl st
  · split
    · exact invPairs_refl st
    · split
      · exact invPairs_refl st
      · rename_i inv heq
        have hupd := invPairs_updInv_const st _ (inv_accept inv).2 inv heq
          (inv_accept_fields inv).1 (inv_accept_fields inv).2
        repeat' first
          | exact invPairs_refl st
          | exact hupd
          | split
          | dsimp only

/-- client_resign_game preserves the invitation pairs. -/
theorem invPairs_resign (st : ServerState) (cid id : Nat) :
    invPairsPreserved st (client_resign_game st cid id).2.1 := by
  unfold client_resign_game
  split
  · exact invPairs_refl st
  · split
    · exact invPairs_refl st
    · split
      · exact invPairs_refl st
      · rename_i inv heq
        have hupd : ∀ role, invPairsPreserved st
            (updInv st _ (fun _ => (inv_close inv role).2)) := fun role =>
          invPairs_updInv_const st _ (inv_close inv role).2 inv heq
            (inv_close_fields inv role).1 (inv_close_fields inv role).2
        repeat' first
          | exact invPairs_refl st
          | exact hupd _
          | exact invPairs_trans (hupd _) (invPairs_client_remove _ _ _)
          | exact invPairs_trans (invPairs_trans (hupd _) (invPairs_client_remove _ _ _))
              (invPairs_client_remove _ _ _)
          | exact invPairs_trans
              (invPairs_trans (invPairs_trans (hupd _) (invPairs_client_remove _ _ _))
                (invPairs_client_remove _ _ _))
              (invPairs_post_result _ _ _ _)
          | split
          | dsimp only

/-- client_make_move preserves the invitation pairs. -/
theorem invPairs_make_move (st : ServerState) (cid id : Nat) (move : List Char) :
    invPairsPreserved st (client_make_move st cid id move).2.1 := by
  unfold client_make_move
  have hupd : ∀ iid g1, invPairsPreserved st
      (updInv st iid (fun i => { i with game := some g1 })) := fun iid g1 =>
    invPairs_updInv st iid _ (fun _ => ⟨rfl, rfl⟩)
  repeat' first
    | exact invPairs_refl st
    | exact hupd _ _
    | exact invPairs_trans (hupd _ _) (invPairs_client_remove _ _ _)
    | exact invPairs_trans (invPairs_trans (hupd _ _) (invPairs_client_remove _ _ _))
        (invPairs_client_remove _ _ _)
    | exact invPairs_trans
        (invPairs_trans (invPairs_trans (hupd _ _) (invPairs_client_remove _ _ _))
          (invPairs_client_remove _ _ _))
        (invPairs_post_result _ _ _ _)
    | split
    | dsimp only

/-- preg_register does not touch the invitations. -/
theorem invPairs_preg_register (st : ServerState) (name : List Char) :
    invPairsPreserved st (preg_register st name).2 := by
  unfold preg_register
  split
  · exact invPairs_player_ref _ _
  · exact invPairs_of_getInv_eq (fun _ => rfl)

/-- client_login does not touch the invitations. -/
theorem invPairs_client_login (st : ServerState) (cid pid : Nat) :
    invPairsPreserved st (client_login st cid pid).2 := by
  unfold client_login
  split
  · exact invPairs_refl st
  · split
    · exact invPairs_refl st
    · exact invPairs_trans (invPairs_updClient _ _ _) (invPairs_player_ref _ _)

/-- client_make_invitation preserves the invitation pairs relative to
the state already holding the fresh invitation. -/
theorem invPairs_make_invitation_aux (st : ServerState) (source target : Nat)
    (source_role target_role : GAME_ROLE) (ok1 ok2 : Bool) :
    invPairsPreserved
      { st with
          invs := (st.next_iid, inv_create source target source_role target_role) :: st.invs,
          next_iid := st.next_iid + 1 }
      (client_make_invitation st source target source_role target_role ok1 ok2).2.1 := by
  unfold client_make_invitation
  repeat' first
    | exact invPairs_trans (invPairs_trans (invPairs_client_add _ _ _ _)
        (invPairs_client_add _ _ _ _)) (invPairs_inv_unref _ _)
    | exact invPairs_trans (invPairs_client_add _ _ _ _) (invPairs_client_add _ _ _ _)
    | exact invPairs_trans (invPairs_client_add _ _ _ _) (invPairs_inv_unref _ _)
    | exact invPairs_client_add _ _ _ _
    | split
    | dsimp only

/-- Every invitation live after client_make_invitation either existed
before with the same sessions or is the fresh one from source to
target. -/
theorem make_invitation_pairs (st : ServerState) (source target : Nat)
    (source_role target_role : GAME_ROLE) (ok1 ok2 : Bool) :
    ∀ iid inv',
      getInv (client_make_invitation st source target source_role target_role ok1 ok2).2.1 iid =
        some inv' →
      (∃ inv, getInv st iid = some inv ∧
        inv.sender = inv'.sender ∧ inv.recipient = inv'.recipient) ∨
      (inv'.sender = source ∧ inv'.recipient = target) := by
  intro iid inv' h
  obtain ⟨inv1, h1, hs, hr⟩ :=
    invPairs_make_invitation_aux st source target source_role target_role ok1 ok2 iid inv' h
  by_cases hi : iid = st.next_iid
  · subst hi
    right
    have : inv1 = inv_create source target source_role target_role := by
      have := h1
      unfold getInv at this
      simp only [lookup_cons_self] at this
      exact (Option.some.injEq _ _).mp this.symm
    rw [← hs, ← hr, this]
    exact ⟨rfl, rfl⟩
  · left
    refine ⟨inv1, ?_, hs, hr⟩
    have := h1
    unfold getInv at this ⊢
    simp only at this
    rw [lookup_cons_ne _ _ _ _ hi] at this
    exact this

/-- One service-loop iteration never creates an invitation whose source
and target sessions coincide: every invitation after the step either
already existed with the same sessions, or joins two distinct
sessions. -/
theorem dispatch_inv_pairs (st : ServerState) (cid : Nat) (flag : Bool)
    (hdr : JEUX_PACKET_HEADER) (payload : List Char) :
    ∀ iid inv', getInv (jeux_dispatch st cid flag hdr payload).st iid = some inv' →
      (∃ inv, getInv st iid = some inv ∧
        inv.sender = inv'.sender ∧ inv.recipient = inv'.recipient) ∨
      inv'.sender ≠ inv'.recipient := by
  intro iid inv' h
  unfold jeux_dispatch at h
  by_cases h0 : hdr.type = JEUX_NO_PKT
  · rw [if_pos h0] at h
    exact Or.inl ((invPairs_refl st) iid inv' h)
  rw [if_neg h0] at h
  by_cases h1 : hdr.type = JEUX_LOGIN_PKT
  · rw [if_pos h1] at h
    by_cases hf : flag = false
    · rw [if_pos hf] at h
      by_cases hchk : check_if_other_clients_logged_in_with_same_player st payload = true
      · rw [if_pos hchk] at h
        exact Or.inl ((invPairs_refl st) iid inv' h)
      · rw [if_neg hchk] at h
        by_cases hlg :
            (client_login (preg_register st payload).2 cid (preg_register st payload).1).1 = 0 <;>
          [rw [if_pos hlg] at h; rw [if_neg hlg] at h] <;>
          exact Or.inl ((invPairs_trans (invPairs_preg_register st payload)
            (invPairs_client_login _ _ _)) iid inv' h)
    · rw [if_neg hf] at h
      exact Or.inl ((invPairs_refl st) iid inv' h)
  rw [if_neg h1] at h
  by_cases h2 : hdr.type = JEUX_USERS_PKT
  · rw [if_pos h2] at h
    by_cases hf : flag = false <;> [rw [if_pos hf] at h; rw [if_neg hf] at h] <;>
      exact Or.inl ((invPairs_refl st) iid inv' h)
  rw [if_neg h2] at h
  by_cases h3 : hdr.type = JEUX_INVITE_PKT
  · rw [if_pos h3] at h
    by_cases hf : flag = false
    · rw [if_pos hf] at h
      exact Or.inl ((invPairs_refl st) iid inv' h)
    · rw [if_neg hf] at h
      cases hcl : creg_lookup st payload with
      | none =>
        rw [hcl] at h
        exact Or.inl ((invPairs_refl st) iid inv' h)
      | some tc =>
        rw [hcl] at h
        dsimp only at h
        by_cases htc : tc = cid
        · rw [if_pos htc] at h
          exact Or.inl ((invPairs_refl st) iid inv' h)
        · rw [if_neg htc] at h
          by_cases hr1 : hdr.role = 1
          · rw [if_pos hr1] at h
            by_cases hmk : (client_make_invitation st cid tc
                GAME_ROLE.SECOND_PLAYER_ROLE GAME_ROLE.FIRST_PLAYER_ROLE true true).1 = -1 <;>
              [rw [if_pos hmk] at h; rw [if_neg hmk] at h] <;>
              · rcases make_invitation_pairs _ _ _ _ _ _ _ _ _ h with hl | ⟨hs, hr⟩
                · exact Or.inl hl
                · right
                  rw [hs, hr]
                  omega
          · rw [if_neg hr1] at h
            by_cases hr2 : hdr.role = 2
            · rw [if_pos hr2] at h
              by_cases hmk : (client_make_invitation st cid tc
                  GAME_ROLE.FIRST_PLAYER_ROLE GAME_ROLE.SECOND_PLAYER_ROLE true true).1 = -1 <;>
                [rw [if_pos hmk] at h; rw [if_neg hmk] at h] <;>
                · rcases make_invitation_pairs _ _ _ _ _ _ _ _ _ h with hl | ⟨hs, hr⟩
                  · exact Or.inl hl
                  · right
                    rw [hs, hr]
                    omega
            · rw [if_neg hr2] at h
              exact Or.inl ((invPairs_refl st) iid inv' h)
  rw [if_neg h3] at h
  by_cases h4 : hdr.type = JEUX_REVOKE_PKT
  · rw [if_pos h4] at h
    by_cases hf : flag = false
    · rw [if_pos hf] at h
      exact Or.inl ((invPairs_refl st) iid inv' h)
    · rw [if_neg hf] at h
      by_cases hop : (client_revoke_invitation st cid hdr.id).1 = -1 <;>
        [rw [if_pos hop] at h; rw [if_neg hop] at h] <;>
        exact Or.inl (invPairs_revoke _ _ _ _ _ h)
  rw [if_neg h4] at h
  by_cases h5 : hdr.type = JEUX_DECLINE_PKT
  · rw [if_pos h5] at h
    by_cases hf : flag = false
    · rw [if_pos hf] at h
      exact Or.inl ((invPairs_refl st) iid inv' h)
    · rw [if_neg hf] at h
      by_cases hop : (client_decline_invitation st cid hdr.id).1 = -1 <;>
        [rw [if_pos hop] at h; rw [if_neg hop] at h] <;>
        exact Or.inl (invPairs_decline _ _ _ _ _ h)
  rw [if_neg h5] at h
  by_cases h6 : hdr.type = JEUX_ACCEPT_PKT
  · rw [if_pos h6] at h
    by_cases hf : flag = false
    · rw [if_pos hf] at h
      exact Or.inl ((invPairs_refl st) iid inv' h)
    · rw [if_neg hf] at h
      by_cases hop : (client_accept_invitation st cid hdr.id none).1 = -1 <;>
        [rw [if_pos hop] at h; rw [if_neg hop] at h] <;>
        exact Or.inl (invPairs_accept _ _ _ _ _ _ h)
  rw [if_neg h6] at h
  by_cases h7 : hdr.type = JEUX_MOVE_PKT
  · rw [if_pos h7] at h
    by_cases hf : flag = false
    · rw [if_pos hf] at h
      exact Or.inl ((invPairs_refl st) iid inv' h)
    · rw [if_neg hf] at h
      by_cases hop : (client_make_move st cid hdr.id payload).1 = -1 <;>
        [rw [if_pos hop] at h; rw [if_neg hop] at h] <;>
        exact Or.inl (invPairs_make_move _ _ _ _ _ _ h)
  rw [if_neg h7] at h
  by_cases h8 : hdr.type = JEUX_RESIGN_PKT
  · rw [if_pos h8] at h
    by_cases hf : flag = false
    · rw [if_pos hf] at h
      exact Or.inl ((invPairs_refl st) iid inv' h)
    · rw [if_neg hf] at h
      by_cases hop : (client_resign_game st cid hdr.id).1 = -1 <;>
        [rw [if_pos hop] at h; rw [if_neg hop] at h] <;>
        exact Or.inl (invPairs_resign _ _ _ _ _ h)
  rw [if_neg h8] at h
  exact Or.inl ((invPairs_refl st) iid inv' h)

/-- States reachable from a start state by service-loop iterations, with
arbitrary requesters, login flags and frames. -/
inductive DispatchReachable : ServerState → ServerState → Prop where
  | refl (st : ServerState) : DispatchReachable st st
  | step (st st1 : ServerState) (cid : Nat) (flag : Bool)
      (hdr : JEUX_PACKET_HEADER) (payload : List Char) :
      DispatchReachable st st1 →
      DispatchReachable st (jeux_dispatch st1 cid flag hdr payload).st

/-- No live invitation joins a session to itself. -/
def NoSelfInvitation (st : ServerState) : Prop :=
  ∀ iid inv, getInv st iid = some inv → inv.sender ≠ inv.recipient

/-- C10: an INVITE whose target username resolves to the requester draws
a NACK and changes nothing, and consequently along every run of the
service loop no reachable state holds an invitation whose source and
target sessions coincide. -/
theorem invite_self_rejected :
    (∀ (st : ServerState) (cid : Nat) (hdr : JEUX_PACKET_HEADER) (payload : List Char),
      hdr.type = JEUX_INVITE_PKT →
      creg_lookup st payload = some cid →
      jeux_dispatch st cid true hdr payload =
        { logged_in := true, st := st, sends := (client_send_nack cid).2 }) ∧
    (∀ st0 st' : ServerState, NoSelfInvitation st0 →
      DispatchReachable st0 st' → NoSelfInvitation st') := by
  constructor
  · intro st cid hdr payload htype hlook
    simp [jeux_dispatch, htype, hlook, JEUX_NO_PKT, JEUX_LOGIN_PKT, JEUX_USERS_PKT,
      JEUX_INVITE_PKT]
  · intro st0 st' h0 hreach
    induction hreach with
    | refl => exact h0
    | step st1 cid flag hdr payload hr ih =>
      intro iid inv hinv hself
      rcases dispatch_inv_pairs st1 cid flag hdr payload iid inv hinv with
        ⟨inv0, hl, hs, hr0⟩ | hne
      · exact ih iid inv0 hl (by rw [hs, hr0, hself])
      · exact hne hself

/-- Witness: in the two-client server, client 0 (logged in as "a")
inviting username "a" resolves to itself and draws a NACK with no state
change; and the invariant transports along the empty run. -/
theorem invite_self_rejected_witness :
    jeux_dispatch exStC7 0 true
      { type := 3, id := 0, role := 1, size := 1, timestamp_sec := 0, timestamp_nsec := 0 }
      ['a'] =
      { logged_in := true, st := exStC7, sends := (client_send_nack 0).2 } ∧
    NoSelfInvitation exStC7 := by
  constructor
  · exact invite_self_rejected.1 exStC7 0
      { type := 3, id := 0, role := 1, size := 1, timestamp_sec := 0, timestamp_nsec := 0 }
      ['a'] (by decide) (by decide)
  · exact invite_self_rejected.2 exStC7 exStC7
      (fun iid inv h => absurd h (by simp [exStC7, getInv]))
      (DispatchReachable.refl exStC7)

/- ===================== C4: the initial board is delivered exactly once ===================== -/

/-- A frame with no payload and zero size always goes out. -/
theorem send_packet_none (d : Nat) (hdr : JEUX_PACKET_HEADER) (h : hdr.size = 0) :
    client_send_packet d hdr none = (0, [{ dest := d, hdr := hdr, payload := none }]) := by
  simp [client_send_packet, proto_send_packet, h]

/-- A frame with a payload and a nonzero size always goes out. -/
theorem send_packet_some (d : Nat) (hdr : JEUX_PACKET_HEADER) (data : List Char)
    (h : hdr.size ≠ 0) :
    client_send_packet d hdr (some data) =
      (0, [{ dest := d, hdr := hdr, payload := some data }]) := by
  simp [client_send_packet, proto_send_packet, h]

/-- The board rendering is never the empty string. -/
theorem game_unparse_state_len (g : GAME) : (game_unparse_state g).length ≠ 0 := by
  simp [game_unparse_state]

/-- inv_accept leaves both role fields unchanged. -/
theorem inv_accept_roles (inv : INVITATION) :
    inv_get_source_role (inv_accept inv).2 = inv_get_source_role inv ∧
    inv_get_target_role (inv_accept inv).2 = inv_get_target_role inv := by
  unfold inv_accept inv_get_source_role inv_get_target_role
  split <;> simp

/-- C4: for every successful accept of an invitation between complementary
roles, the initial board string is delivered exactly once: the ACCEPTED
notification to the source carries it iff the source plays FIRST, the
string handed back for the ACK to the accepting target carries it iff the
target plays FIRST, never both and never neither; and the service loop's
ACCEPT branch sends exactly that ACK to the requester after the ACCEPTED
frame. -/
theorem accept_board_exactly_once (st : ServerState) (cid id : Nat)
    (c : CLIENT) (node : INVITATION_NODE) (inv : INVITATION)
    (hc : getClient st cid = some c)
    (hnode : c.invitations_head.find? (fun n => n.id == id) = some node)
    (hinv : getInv st node.invitation = some inv)
    (hroles : (inv_get_source_role inv = GAME_ROLE.FIRST_PLAYER_ROLE ∧
               inv_get_target_role inv = GAME_ROLE.SECOND_PLAYER_ROLE) ∨
              (inv_get_source_role inv = GAME_ROLE.SECOND_PLAYER_ROLE ∧
               inv_get_target_role inv = GAME_ROLE.FIRST_PLAYER_ROLE))
    (hok : (client_accept_invitation st cid id none).1 = 0) :
    ∃ p : SentPacket,
      (client_accept_invitation st cid id none).2.2.1 = [p] ∧
      p.dest = inv_get_source inv ∧
      p.hdr.type = JEUX_ACCEPTED_PKT ∧
      (p.payload ≠ none ↔ inv_get_source_role inv = GAME_ROLE.FIRST_PLAYER_ROLE) ∧
      ((client_accept_invitation st cid id none).2.2.2 ≠ none ↔
        inv_get_target_role inv = GAME_ROLE.FIRST_PLAYER_ROLE) ∧
      (p.payload ≠ none ↔ ¬ (client_accept_invitation st cid id none).2.2.2 ≠ none) ∧
      (∀ (hdr : JEUX_PACKET_HEADER) (pl : List Char),
        hdr.type = JEUX_ACCEPT_PKT → hdr.id = id →
        ∃ q : SentPacket,
          (jeux_dispatch st cid true hdr pl).sends = [p, q] ∧
          q.dest = cid ∧ q.hdr.type = JEUX_ACK_PKT ∧
          q.payload = (client_accept_invitation st cid id none).2.2.2) := by
  have hne : ¬ (client_accept_invitation st cid id none).1 = -1 := by
    intro h
    rw [h] at hok
    exact absurd hok (by decide)
  unfold client_accept_invitation at hok
  rw [hc] at hok
  dsimp only at hok
  rw [hnode] at hok
  dsimp only at hok
  rw [hinv] at hok
  dsimp only at hok
  by_cases h1 : inv_get_target inv ≠ cid
  · rw [if_pos h1] at hok; simp at hok
  rw [if_neg h1] at hok
  by_cases h2 : inv_get_game inv ≠ none
  · rw [if_pos h2] at hok; simp at hok
  rw [if_neg h2] at hok
  by_cases h3 : (inv_accept inv).1 = -1
  · rw [if_pos h3] at hok; simp at hok
  rw [if_neg h3] at hok
  cases hsrc : getClient (updInv st node.invitation (fun _ => (inv_accept inv).2))
      (inv_get_source inv) with
  | none => rw [hsrc] at hok; simp at hok
  | some src =>
  rw [hsrc] at hok
  dsimp only at hok
  cases hfind : src.invitations_head.find? (fun n => n.invitation == node.invitation) with
  | none => rw [hfind] at hok; simp at hok
  | some source_node =>
  rw [hfind] at hok
  dsimp only at hok
  set str := game_unparse_state ((inv_get_game (inv_accept inv).2).getD game_create) with hstr
  have hlen : str.length ≠ 0 := by rw [hstr]; exact game_unparse_state_len _
  rcases hroles with ⟨hsr, htr⟩ | ⟨hsr, htr⟩
  · -- the source plays FIRST: the board rides on the ACCEPTED frame
    have hcond : inv_get_source_role (inv_accept inv).2 = GAME_ROLE.FIRST_PLAYER_ROLE :=
      (inv_accept_roles inv).1.trans hsr
    have heq : client_accept_invitation st cid id none =
        (0, updInv st node.invitation (fun _ => (inv_accept inv).2),
         [{ dest := inv_get_source inv
          , hdr := { { make_packet JEUX_ACCEPTED_PKT 0 with id := source_node.id } with
              size := str.length }
          , payload := some str }], none) := by
      unfold client_accept_invitation
      rw [hc]
      dsimp only
      rw [hnode]
      dsimp only
      rw [hinv]
      dsimp only
      rw [if_neg h1, if_neg h2, if_neg h3, hsrc]
      dsimp only
      rw [hfind]
      dsimp only
      rw [if_pos hcond, ← hstr]
      simp [client_send_packet, proto_send_packet, hlen, make_packet]
    rw [heq]
    refine ⟨_, rfl, rfl, rfl, ?_, ?_, ?_, ?_⟩
    · simp [hsr]
    · simp [htr]
    · simp
    · intro hdr pl htype hid
      have ht0 : ¬ hdr.type = JEUX_NO_PKT := by rw [htype]; decide
      have ht1 : ¬ hdr.type = JEUX_LOGIN_PKT := by rw [htype]; decide
      have ht2 : ¬ hdr.type = JEUX_USERS_PKT := by rw [htype]; decide
      have ht3 : ¬ hdr.type = JEUX_INVITE_PKT := by rw [htype]; decide
      have ht4 : ¬ hdr.type = JEUX_REVOKE_PKT := by rw [htype]; decide
      have ht5 : ¬ hdr.type = JEUX_DECLINE_PKT := by rw [htype]; decide
      unfold jeux_dispatch
      rw [if_neg ht0, if_neg ht1, if_neg ht2, if_neg ht3, if_neg ht4, if_neg ht5,
          if_pos htype, if_neg (by decide : ¬ (true = false)), hid, if_neg hne, heq]
      dsimp only
      rw [send_packet_none]
      · exact ⟨_, rfl, rfl, rfl, rfl⟩
      · rfl
  · -- the source plays SECOND: the board comes back for the accept ACK
    have hcond : ¬ inv_get_source_role (inv_accept inv).2 = GAME_ROLE.FIRST_PLAYER_ROLE := by
      rw [(inv_accept_roles inv).1, hsr]; decide
    have heq : client_accept_invitation st cid id none =
        (0, updInv st node.invitation (fun _ => (inv_accept inv).2),
         [{ dest := inv_get_source inv
          , hdr := { make_packet JEUX_ACCEPTED_PKT 0 with id := source_node.id }
          , payload := none }], some str) := by
      unfold client_accept_invitation
      rw [hc]
      dsimp only
      rw [hnode]
      dsimp only
      rw [hinv]
      dsimp only
      rw [if_neg h1, if_neg h2, if_neg h3, hsrc]
      dsimp only
      rw [hfind]
      dsimp only
      rw [if_neg hcond, ← hstr]
      simp [client_send_packet, proto_send_packet, make_packet]
    rw [heq]
    refine ⟨_, rfl, rfl, rfl, ?_, ?_, ?_, ?_⟩
    · simp [hsr]
    · simp [htr]
    · simp
    · intro hdr pl htype hid
      have ht0 : ¬ hdr.type = JEUX_NO_PKT := by rw [htype]; decide
      have ht1 : ¬ hdr.type = JEUX_LOGIN_PKT := by rw [htype]; decide
      have ht2 : ¬ hdr.type = JEUX_USERS_PKT := by rw [htype]; decide
      have ht3 : ¬ hdr.type = JEUX_INVITE_PKT := by rw [htype]; decide
      have ht4 : ¬ hdr.type = JEUX_REVOKE_PKT := by rw [htype]; decide
      have ht5 : ¬ hdr.type = JEUX_DECLINE_PKT := by rw [htype]; decide
      unfold jeux_dispatch
      rw [if_neg ht0, if_neg ht1, if_neg ht2, if_neg ht3, if_neg ht4, if_neg ht5,
          if_pos htype, if_neg (by decide : ¬ (true = false)), hid, if_neg hne, heq]
      dsimp only
      rw [send_packet_some]
      · exact ⟨_, rfl, rfl, rfl, rfl⟩
      · simpa using hlen

/-- A concrete session for the accept scenario: client 0 invited client 1,
choosing FIRST for itself. -/
def invC4 : INVITATION := inv_create 0 1 GAME_ROLE.FIRST_PLAYER_ROLE GAME_ROLE.SECOND_PLAYER_ROLE

/-- The handle both clients hold on invC4 (C pointer 7), local id 0. -/
def nodeC4 : INVITATION_NODE := { invitation := 7, id := 0 }

/-- The inviting client. -/
def srcC4 : CLIENT := { fd := 0, logged_in := true, player := some 0, invitations_head := [nodeC4] }

/-- The invited client, about to accept. -/
def tgtC4 : CLIENT := { fd := 1, logged_in := true, player := some 1, invitations_head := [nodeC4] }

/-- The server with both sessions live and the invitation OPEN. -/
def exStC4 : ServerState :=
  { clients := [(0, srcC4), (1, tgtC4)]
  , invs := [(7, invC4)]
  , players := [(0, { username := ['a'], rating := 1500, ref_count := 2 }),
                (1, { username := ['b'], rating := 1500, ref_count := 2 })]
  , next_iid := 8
  , next_pid := 2
  , rating_posts := [] }

/-- Witness for accept_board_exactly_once: client 1 accepts invitation 0 in
exStC4; the source plays FIRST, so the ACCEPTED frame carries the board and
the ACK is bare. -/
theorem accept_board_exactly_once_witness :
    ∃ p : SentPacket,
      (client_accept_invitation exStC4 1 0 none).2.2.1 = [p] ∧
      p.dest = inv_get_source invC4 ∧
      p.hdr.type = JEUX_ACCEPTED_PKT ∧
      (p.payload ≠ none ↔ inv_get_source_role invC4 = GAME_ROLE.FIRST_PLAYER_ROLE) ∧
      ((client_accept_invitation exStC4 1 0 none).2.2.2 ≠ none ↔
        inv_get_target_role invC4 = GAME_ROLE.FIRST_PLAYER_ROLE) ∧
      (p.payload ≠ none ↔ ¬ (client_accept_invitation exStC4 1 0 none).2.2.2 ≠ none) ∧
      (∀ (hdr : JEUX_PACKET_HEADER) (pl : List Char),
        hdr.type = JEUX_ACCEPT_PKT → hdr.id = 0 →
        ∃ q : SentPacket,
          (jeux_dispatch exStC4 1 true hdr pl).sends = [p, q] ∧
          q.dest = 1 ∧ q.hdr.type = JEUX_ACK_PKT ∧
          q.payload = (client_accept_invitation exStC4 1 0 none).2.2.2) :=
  accept_board_exactly_once exStC4 1 0 tgtC4 nodeC4 invC4 (by decide) (by decide) (by decide)
    (Or.inl (by decide)) (by decide)

/- ===================== C1: one synchronous response per request frame ===================== -/

/-- A synchronous response of the service loop: an ACK or NACK frame
addressed to the requesting client. -/
def is_sync_response (cid : Nat) (p : SentPacket) : Bool :=
  p.dest == cid && (p.hdr.type == JEUX_ACK_PKT || p.hdr.type == JEUX_NACK_PKT)

/-- Every frame client_send_packet puts on the wire carries the header it
was given. -/
theorem mem_send_packet_hdr (d : Nat) (hdr : JEUX_PACKET_HEADER)
    (data : Option (List Char)) (p : SentPacket)
    (hp : p ∈ (client_send_packet d hdr data).2) : p.hdr = hdr := by
  unfold client_send_packet proto_send_packet at hp
  split at hp
  · simp at hp
  · rename_i q heq
    split at heq
    · exact absurd heq (by simp)
    · simp only [Option.some.injEq] at heq
      subst heq
      simp at hp
      rw [hp]

/-- Frames from client_send_packet keep a non-response header type. -/
theorem no_response_frames_send (d : Nat) (hdr : JEUX_PACKET_HEADER)
    (data : Option (List Char))
    (hT : hdr.type ≠ JEUX_ACK_PKT ∧ hdr.type ≠ JEUX_NACK_PKT) :
    ∀ p ∈ (client_send_packet d hdr data).2,
      p.hdr.type ≠ JEUX_ACK_PKT ∧ p.hdr.type ≠ JEUX_NACK_PKT := by
  intro p hp
  rw [mem_send_packet_hdr d hdr data p hp]
  exact hT

/-- client_make_invitation emits only INVITED-typed frames. -/
theorem no_response_make_invitation (st : ServerState) (source target : Nat)
    (r1 r2 : GAME_ROLE) (o1 o2 : Bool) :
    ∀ p ∈ (client_make_invitation st source target r1 r2 o1 o2).2.2,
      p.hdr.type ≠ JEUX_ACK_PKT ∧ p.hdr.type ≠ JEUX_NACK_PKT := by
  intro p hp
  unfold client_make_invitation at hp
  dsimp only at hp
  repeat' split at hp
  all_goals try simp at hp
  all_goals rw [mem_send_packet_hdr _ _ _ p hp]
  all_goals constructor <;>
    simp [make_packet, JEUX_INVITED_PKT, JEUX_REVOKED_PKT, JEUX_ACCEPTED_PKT,
      JEUX_DECLINED_PKT, JEUX_MOVED_PKT, JEUX_RESIGNED_PKT, JEUX_ENDED_PKT,
      JEUX_ACK_PKT, JEUX_NACK_PKT]

/-- A frame from client_send_packet whose header type is not ACK or NACK. -/
theorem no_response_of_send (d : Nat) (hdr : JEUX_PACKET_HEADER)
    (data : Option (List Char)) (p : SentPacket)
    (hp : p ∈ (client_send_packet d hdr data).2)
    (h1 : hdr.type ≠ JEUX_ACK_PKT) (h2 : hdr.type ≠ JEUX_NACK_PKT) :
    p.hdr.type ≠ JEUX_ACK_PKT ∧ p.hdr.type ≠ JEUX_NACK_PKT := by
  rw [mem_send_packet_hdr d hdr data p hp]
  exact ⟨h1, h2⟩

/-- Non-response frames are preserved by concatenation. -/
theorem no_response_append (l1 l2 : List SentPacket)
    (h1 : ∀ p ∈ l1, p.hdr.type ≠ JEUX_ACK_PKT ∧ p.hdr.type ≠ JEUX_NACK_PKT)
    (h2 : ∀ p ∈ l2, p.hdr.type ≠ JEUX_ACK_PKT ∧ p.hdr.type ≠ JEUX_NACK_PKT) :
    ∀ p ∈ l1 ++ l2, p.hdr.type ≠ JEUX_ACK_PKT ∧ p.hdr.type ≠ JEUX_NACK_PKT := by
  intro p hp
  rcases List.mem_append.mp hp with h | h
  · exact h1 p h
  · exact h2 p h

/-- client_revoke_invitation emits only REVOKED-typed frames. -/
theorem no_response_revoke (st : ServerState) (cid id : Nat) :
    ∀ p ∈ (client_revoke_invitation st cid id).2.2,
      p.hdr.type ≠ JEUX_ACK_PKT ∧ p.hdr.type ≠ JEUX_NACK_PKT := by
  intro p hp
  unfold client_revoke_invitation at hp
  dsimp only at hp
  repeat' split at hp
  all_goals try dsimp only at hp
  all_goals first
    | exact absurd hp (List.not_mem_nil p)
    | (refine no_response_of_send _ _ _ p hp ?_ ?_ <;>
        simp [make_packet, construct_packet, JEUX_REVOKED_PKT, JEUX_ACK_PKT, JEUX_NACK_PKT])

/-- client_decline_invitation emits only DECLINED-typed frames. -/
theorem no_response_decline (st : ServerState) (cid id : Nat) :
    ∀ p ∈ (client_decline_invitation st cid id).2.2,
      p.hdr.type ≠ JEUX_ACK_PKT ∧ p.hdr.type ≠ JEUX_NACK_PKT := by
  intro p hp
  unfold client_decline_invitation at hp
  dsimp only at hp
  repeat' split at hp
  all_goals try dsimp only at hp
  all_goals first
    | exact absurd hp (List.not_mem_nil p)
    | (refine no_response_of_send _ _ _ p hp ?_ ?_ <;>
        simp [make_packet, construct_packet, JEUX_DECLINED_PKT, JEUX_ACK_PKT, JEUX_NACK_PKT])

/-- client_accept_invitation emits only ACCEPTED-typed frames. -/
theorem no_response_accept (st : ServerState) (cid id : Nat)
    (strp0 : Option (List Char)) :
    ∀ p ∈ (client_accept_invitation st cid id strp0).2.2.1,
      p.hdr.type ≠ JEUX_ACK_PKT ∧ p.hdr.type ≠ JEUX_NACK_PKT := by
  intro p hp
  unfold client_accept_invitation at hp
  dsimp only at hp
  repeat' split at hp
  all_goals try dsimp only at hp
  all_goals first
    | exact absurd hp (List.not_mem_nil p)
    | (refine no_response_of_send _ _ _ p hp ?_ ?_ <;>
        simp [make_packet, construct_packet, JEUX_ACCEPTED_PKT, JEUX_ACK_PKT, JEUX_NACK_PKT])

/-- client_resign_game emits only RESIGNED- and ENDED-typed frames. -/
theorem no_response_resign (st : ServerState) (cid id : Nat) :
    ∀ p ∈ (client_resign_game st cid id).2.2,
      p.hdr.type ≠ JEUX_ACK_PKT ∧ p.hdr.type ≠ JEUX_NACK_PKT := by
  intro p hp
  unfold client_resign_game at hp
  dsimp only at hp
  repeat' split at hp
  all_goals try dsimp only at hp
  all_goals repeat' (rcases List.mem_append.mp hp with hp | hp)
  all_goals first
    | exact absurd hp (List.not_mem_nil p)
    | (refine no_response_of_send _ _ _ p hp ?_ ?_ <;>
        simp [make_packet, construct_packet, JEUX_RESIGNED_PKT, JEUX_ENDED_PKT, JEUX_ACK_PKT, JEUX_NACK_PKT])

/-- client_make_move emits only MOVED- and ENDED-typed frames. -/
theorem no_response_make_move (st : ServerState) (cid id : Nat) (move : List Char) :
    ∀ p ∈ (client_make_move st cid id move).2.2,
      p.hdr.type ≠ JEUX_ACK_PKT ∧ p.hdr.type ≠ JEUX_NACK_PKT := by
  intro p hp
  unfold client_make_move at hp
  dsimp only at hp
  repeat' split at hp
  all_goals try dsimp only at hp
  all_goals repeat' (rcases List.mem_append.mp hp with hp | hp)
  all_goals first
    | exact absurd hp (List.not_mem_nil p)
    | (refine no_response_of_send _ _ _ p hp ?_ ?_ <;>
        simp [make_packet, construct_packet, JEUX_MOVED_PKT, JEUX_ENDED_PKT, JEUX_ACK_PKT, JEUX_NACK_PKT])

/-- A filter over frames none of which is ACK- or NACK-typed is empty. -/
theorem filter_response_ops (cid : Nat) (l : List SentPacket)
    (h : ∀ p ∈ l, p.hdr.type ≠ JEUX_ACK_PKT ∧ p.hdr.type ≠ JEUX_NACK_PKT) :
    l.filter (is_sync_response cid) = [] := by
  rw [List.filter_eq_nil_iff]
  intro p hp
  simp only [is_sync_response, Bool.and_eq_true, Bool.or_eq_true, beq_iff_eq, not_and, not_or]
  intro _
  exact ⟨(h p hp).1, (h p hp).2⟩

/-- After non-response frames, one ACK- or NACK-typed frame to the requester
that passes proto_send_packet's size check is exactly one response. -/
theorem count_response_after (cid : Nat) (l : List SentPacket)
    (hdr : JEUX_PACKET_HEADER) (data : Option (List Char))
    (hl : ∀ p ∈ l, p.hdr.type ≠ JEUX_ACK_PKT ∧ p.hdr.type ≠ JEUX_NACK_PKT)
    (htype : hdr.type = JEUX_ACK_PKT ∨ hdr.type = JEUX_NACK_PKT)
    (hok : (hdr.size = 0 ∧ data = none) ∨ (hdr.size ≠ 0 ∧ data ≠ none)) :
    ((l ++ (client_send_packet cid hdr data).2).filter (is_sync_response cid)).length = 1 := by
  have hcond : ¬ ((hdr.size = 0 ∧ data ≠ none) ∨ (hdr.size ≠ 0 ∧ data = none)) := by
    rcases hok with ⟨h1, h2⟩ | ⟨h1, h2⟩ <;> simp [h1, h2]
  unfold client_send_packet proto_send_packet
  rw [if_neg hcond]
  dsimp only
  rw [List.filter_append, filter_response_ops cid l hl]
  rcases htype with ht | ht <;>
    simp [is_sync_response, ht, JEUX_ACK_PKT, JEUX_NACK_PKT]

/-- Non-response frames followed by a NACK: one response. -/
theorem count_nack_after (cid : Nat) (l : List SentPacket)
    (hl : ∀ p ∈ l, p.hdr.type ≠ JEUX_ACK_PKT ∧ p.hdr.type ≠ JEUX_NACK_PKT) :
    ((l ++ (client_send_nack cid).2).filter (is_sync_response cid)).length = 1 := by
  unfold client_send_nack
  exact count_response_after cid l _ _ hl (Or.inr rfl) (Or.inl ⟨rfl, rfl⟩)

/-- Non-response frames followed by a bare ACK: one response. -/
theorem count_ack0_after (cid : Nat) (l : List SentPacket)
    (hl : ∀ p ∈ l, p.hdr.type ≠ JEUX_ACK_PKT ∧ p.hdr.type ≠ JEUX_NACK_PKT) :
    ((l ++ (client_send_ack cid none 0).2).filter (is_sync_response cid)).length = 1 := by
  unfold client_send_ack
  exact count_response_after cid l _ _ hl (Or.inl rfl) (Or.inl ⟨rfl, rfl⟩)

/-- A lone NACK is one response. -/
theorem count_nack (cid : Nat) :
    ((client_send_nack cid).2.filter (is_sync_response cid)).length = 1 := by
  have h := count_nack_after cid [] (by intro p hp; exact absurd hp (List.not_mem_nil p))
  simpa using h

/-- A lone bare ACK is one response. -/
theorem count_ack0 (cid : Nat) :
    ((client_send_ack cid none 0).2.filter (is_sync_response cid)).length = 1 := by
  have h := count_ack0_after cid [] (by intro p hp; exact absurd hp (List.not_mem_nil p))
  simpa using h

/-- The USERS ACK with a nonempty roster blob is one response. -/
theorem count_users_ack (cid : Nat) (blob : List Char) (hb : blob ≠ []) :
    ((client_send_ack cid (some blob) blob.length).2.filter (is_sync_response cid)).length
      = 1 := by
  have hlen : blob.length ≠ 0 := by simpa [List.length_eq_zero] using hb
  have h := count_response_after cid [] (make_packet JEUX_ACK_PKT blob.length) (some blob)
    (by intro p hp; exact absurd hp (List.not_mem_nil p)) (Or.inl rfl)
    (Or.inr ⟨hlen, by simp⟩)
  unfold client_send_ack
  simpa using h

/-- A successful assoc-list lookup comes from an entry of the list. -/
theorem lookup_mem {β : Type} (l : List (Nat × β)) (k : Nat) (b : β)
    (h : l.lookup k = some b) : (k, b) ∈ l := by
  induction l with
  | nil => simp [List.lookup] at h
  | cons hd tl ih =>
    obtain ⟨a, v⟩ := hd
    by_cases hk : k = a
    · subst hk
      rw [lookup_cons_self] at h
      cases h
      exact List.mem_cons_self _ _
    · rw [lookup_cons_ne _ _ _ _ hk] at h
      exact List.mem_cons_of_mem _ (ih h)

/-- One roster line is never empty. -/
theorem users_line_ne_nil (st : ServerState) (pid : Nat) : users_line st pid ≠ [] := by
  simp [users_line]

/-- With the requester logged in under a player, the USERS blob is
nonempty. -/
theorem users_blob_ne_nil (st : ServerState) (cid : Nat) (c : CLIENT) (pid : Nat)
    (hc : getClient st cid = some c) (hl : c.logged_in = true) (hp : c.player = some pid) :
    users_blob st ≠ [] := by
  have hmem : (cid, c) ∈ st.clients := lookup_mem _ _ _ hc
  have hpid : pid ∈ creg_all_players st := by
    unfold creg_all_players
    rw [List.mem_filterMap]
    exact ⟨(cid, c), hmem, by simp [client_get_player, hl, hp]⟩
  intro hnil
  unfold users_blob at hnil
  rw [List.flatten_eq_nil_iff] at hnil
  exact users_line_ne_nil st pid (hnil (users_line st pid) (List.mem_map_of_mem _ hpid))

/-- The string client_accept_invitation hands back for the ACK, when the
caller passes the NULL the service loop passes, is either still NULL or a
rendered board. -/
theorem accept_strp_shape (st : ServerState) (cid id : Nat) :
    (client_accept_invitation st cid id none).2.2.2 = none ∨
    ∃ g, (client_accept_invitation st cid id none).2.2.2 = some (game_unparse_state g) := by
  unfold client_accept_invitation
  dsimp only
  repeat' split
  all_goals first
    | exact Or.inl rfl
    | exact Or.inr ⟨_, rfl⟩

/-- C1, amended: a frame of one of the eight defined request types elicits
exactly one synchronous ACK or NACK to the requesting client, before and
after login; but a frame of any other type (including the unused type 0)
elicits nothing at all, not the NACK the specification promises, because
the switch of jeux_client_service has no default case. -/
theorem dispatch_single_response (st : ServerState) (cid : Nat) (logged_in : Bool)
    (hdr : JEUX_PACKET_HEADER) (pl : List Char) (c : CLIENT)
    (hc : getClient st cid = some c)
    (hsync : logged_in = true → c.logged_in = true ∧ c.player.isSome = true) :
    (hdr.type ∈ [JEUX_LOGIN_PKT, JEUX_USERS_PKT, JEUX_INVITE_PKT, JEUX_REVOKE_PKT,
        JEUX_DECLINE_PKT, JEUX_ACCEPT_PKT, JEUX_MOVE_PKT, JEUX_RESIGN_PKT] →
      ((jeux_dispatch st cid logged_in hdr pl).sends.filter (is_sync_response cid)).length
        = 1) ∧
    ((hdr.type = JEUX_NO_PKT ∨ 9 ≤ hdr.type) →
      (jeux_dispatch st cid logged_in hdr pl).sends = []) := by
  constructor
  · intro ht
    simp only [List.mem_cons, List.not_mem_nil, or_false] at ht
    cases logged_in with
    | false =>
      rcases ht with ht | ht | ht | ht | ht | ht | ht | ht
      · have n0 : ¬ hdr.type = JEUX_NO_PKT := by rw [ht]; decide
        unfold jeux_dispatch
        rw [if_neg n0, if_pos ht, if_pos rfl]
        by_cases hchk : check_if_other_clients_logged_in_with_same_player st pl = true
        · rw [if_pos hchk]
          exact count_nack cid
        · rw [if_neg hchk]
          by_cases hlg :
              (client_login (preg_register st pl).2 cid (preg_register st pl).1).1 = 0
          · rw [if_pos hlg]
            exact count_ack0 cid
          · rw [if_neg hlg]
            exact count_nack cid
      · have n0 : ¬ hdr.type = JEUX_NO_PKT := by rw [ht]; decide
        have n1 : ¬ hdr.type = JEUX_LOGIN_PKT := by rw [ht]; decide
        unfold jeux_dispatch
        rw [if_neg n0, if_neg n1, if_pos ht, if_pos rfl]
        exact count_nack cid
      · have n0 : ¬ hdr.type = JEUX_NO_PKT := by rw [ht]; decide
        have n1 : ¬ hdr.type = JEUX_LOGIN_PKT := by rw [ht]; decide
        have n2 : ¬ hdr.type = JEUX_USERS_PKT := by rw [ht]; decide
        unfold jeux_dispatch
        rw [if_neg n0, if_neg n1, if_neg n2, if_pos ht, if_pos rfl]
        exact count_nack cid
      · have n0 : ¬ hdr.type = JEUX_NO_PKT := by rw [ht]; decide
        have n1 : ¬ hdr.type = JEUX_LOGIN_PKT := by rw [ht]; decide
        have n2 : ¬ hdr.type = JEUX_USERS_PKT := by rw [ht]; decide
        have n3 : ¬ hdr.type = JEUX_INVITE_PKT := by rw [ht]; decide
        unfold jeux_dispatch
        rw [if_neg n0, if_neg n1, if_neg n2, if_neg n3, if_pos ht, if_pos rfl]
        exact count_nack cid
      · have n0 : ¬ hdr.type = JEUX_NO_PKT := by rw [ht]; decide
        have n1 : ¬ hdr.type = JEUX_LOGIN_PKT := by rw [ht]; decide
        have n2 : ¬ hdr.type = JEUX_USERS_PKT := by rw [ht]; decide
        have n3 : ¬ hdr.type = JEUX_INVITE_PKT := by rw [ht]; decide
        have n4 : ¬ hdr.type = JEUX_REVOKE_PKT := by rw [ht]; decide
        unfold jeux_dispatch
        rw [if_neg n0, if_neg n1, if_neg n2, if_neg n3, if_neg n4, if_pos ht, if_pos rfl]
        exact count_nack cid
      · have n0 : ¬ hdr.type = JEUX_NO_PKT := by rw [ht]; decide
        have n1 : ¬ hdr.type = JEUX_LOGIN_PKT := by rw [ht]; decide
        have n2 : ¬ hdr.type = JEUX_USERS_PKT := by rw [ht]; decide
        have n3 : ¬ hdr.type = JEUX_INVITE_PKT := by rw [ht]; decide
        have n4 : ¬ hdr.type = JEUX_REVOKE_PKT := by rw [ht]; decide
        have n5 : ¬ hdr.type = JEUX_DECLINE_PKT := by rw [ht]; decide
        unfold jeux_dispatch
        rw [if_neg n0, if_neg n1, if_neg n2, if_neg n3, if_neg n4, if_neg n5, if_pos ht, if_pos rfl]
        exact count_nack cid
      · have n0 : ¬ hdr.type = JEUX_NO_PKT := by rw [ht]; decide
        have n1 : ¬ hdr.type = JEUX_LOGIN_PKT := by rw [ht]; decide
        have n2 : ¬ hdr.type = JEUX_USERS_PKT := by rw [ht]; decide
        have n3 : ¬ hdr.type = JEUX_INVITE_PKT := by rw [ht]; decide
        have n4 : ¬ hdr.type = JEUX_REVOKE_PKT := by rw [ht]; decide
        have n5 : ¬ hdr.type = JEUX_DECLINE_PKT := by rw [ht]; decide
        have n6 : ¬ hdr.type = JEUX_ACCEPT_PKT := by rw [ht]; decide
        unfold jeux_dispatch
        rw [if_neg n0, if_neg n1, if_neg n2, if_neg n3, if_neg n4, if_neg n5, if_neg n6, if_pos ht, if_pos rfl]
        exact count_nack cid
      · have n0 : ¬ hdr.type = JEUX_NO_PKT := by rw [ht]; decide
        have n1 : ¬ hdr.type = JEUX_LOGIN_PKT := by rw [ht]; decide
        have n2 : ¬ hdr.type = JEUX_USERS_PKT := by rw [ht]; decide
        have n3 : ¬ hdr.type = JEUX_INVITE_PKT := by rw [ht]; decide
        have n4 : ¬ hdr.type = JEUX_REVOKE_PKT := by rw [ht]; decide
        have n5 : ¬ hdr.type = JEUX_DECLINE_PKT := by rw [ht]; decide
        have n6 : ¬ hdr.type = JEUX_ACCEPT_PKT := by rw [ht]; decide
        have n7 : ¬ hdr.type = JEUX_MOVE_PKT := by rw [ht]; decide
        unfold jeux_dispatch
        rw [if_neg n0, if_neg n1, if_neg n2, if_neg n3, if_neg n4, if_neg n5, if_neg n6, if_neg n7, if_pos ht, if_pos rfl]
        exact count_nack cid
    | true =>
      obtain ⟨hcl, hps⟩ := hsync rfl
      obtain ⟨pid, hp⟩ := Option.isSome_iff_exists.mp hps
      have htf : ¬ (true = false) := by decide
      rcases ht with ht | ht | ht | ht | ht | ht | ht | ht
      · have n0 : ¬ hdr.type = JEUX_NO_PKT := by rw [ht]; decide
        unfold jeux_dispatch
        rw [if_neg n0, if_pos ht, if_neg htf]
        exact count_nack cid
      · have n0 : ¬ hdr.type = JEUX_NO_PKT := by rw [ht]; decide
        have n1 : ¬ hdr.type = JEUX_LOGIN_PKT := by rw [ht]; decide
        unfold jeux_dispatch
        rw [if_neg n0, if_neg n1, if_pos ht, if_neg htf]
        exact count_users_ack cid (users_blob st)
          (users_blob_ne_nil st cid c pid hc hcl hp)
      · have n0 : ¬ hdr.type = JEUX_NO_PKT := by rw [ht]; decide
        have n1 : ¬ hdr.type = JEUX_LOGIN_PKT := by rw [ht]; decide
        have n2 : ¬ hdr.type = JEUX_USERS_PKT := by rw [ht]; decide
        unfold jeux_dispatch
        rw [if_neg n0, if_neg n1, if_neg n2, if_pos ht, if_neg htf]
        cases hlk : creg_lookup st pl with
        | none =>
          exact count_nack cid
        | some t =>
          dsimp only
          by_cases hts : t = cid
          · rw [if_pos hts]
            exact count_nack cid
          · rw [if_neg hts]
            by_cases hr1 : hdr.role = 1
            · rw [if_pos hr1]
              by_cases hmi : (client_make_invitation st cid t GAME_ROLE.SECOND_PLAYER_ROLE
                  GAME_ROLE.FIRST_PLAYER_ROLE true true).1 = -1
              · rw [if_pos hmi]
                exact count_nack_after cid _ (no_response_make_invitation st cid t _ _ _ _)
              · rw [if_neg hmi]
                exact count_response_after cid _ _ _
                  (no_response_make_invitation st cid t _ _ _ _)
                  (Or.inl (by simp [construct_packet]))
                  (Or.inl ⟨by simp [construct_packet], rfl⟩)
            · by_cases hr2 : hdr.role = 2
              · rw [if_neg hr1, if_pos hr2]
                by_cases hmi : (client_make_invitation st cid t GAME_ROLE.FIRST_PLAYER_ROLE
                    GAME_ROLE.SECOND_PLAYER_ROLE true true).1 = -1
                · rw [if_pos hmi]
                  exact count_nack_after cid _ (no_response_make_invitation st cid t _ _ _ _)
                · rw [if_neg hmi]
                  exact count_response_after cid _ _ _
                    (no_response_make_invitation st cid t _ _ _ _)
                    (Or.inl (by simp [construct_packet]))
                    (Or.inl ⟨by simp [construct_packet], rfl⟩)
              · rw [if_neg hr1, if_neg hr2]
                exact count_nack cid
      · have n0 : ¬ hdr.type = JEUX_NO_PKT := by rw [ht]; decide
        have n1 : ¬ hdr.type = JEUX_LOGIN_PKT := by rw [ht]; decide
        have n2 : ¬ hdr.type = JEUX_USERS_PKT := by rw [ht]; decide
        have n3 : ¬ hdr.type = JEUX_INVITE_PKT := by rw [ht]; decide
        unfold jeux_dispatch
        rw [if_neg n0, if_neg n1, if_neg n2, if_neg n3, if_pos ht, if_neg htf]
        by_cases hrv : (client_revoke_invitation st cid hdr.id).1 = -1
        · rw [if_pos hrv]
          exact count_nack_after cid _ (no_response_revoke st cid hdr.id)
        · rw [if_neg hrv]
          exact count_ack0_after cid _ (no_response_revoke st cid hdr.id)
      · have n0 : ¬ hdr.type = JEUX_NO_PKT := by rw [ht]; decide
        have n1 : ¬ hdr.type = JEUX_LOGIN_PKT := by rw [ht]; decide
        have n2 : ¬ hdr.type = JEUX_USERS_PKT := by rw [ht]; decide
        have n3 : ¬ hdr.type = JEUX_INVITE_PKT := by rw [ht]; decide
        have n4 : ¬ hdr.type = JEUX_REVOKE_PKT := by rw [ht]; decide
        unfold jeux_dispatch
        rw [if_neg n0, if_neg n1, if_neg n2, if_neg n3, if_neg n4, if_pos ht, if_neg htf]
        by_cases hdc : (client_decline_invitation st cid hdr.id).1 = -1
        · rw [if_pos hdc]
          exact count_nack_after cid _ (no_response_decline st cid hdr.id)
        · rw [if_neg hdc]
          exact count_ack0_after cid _ (no_response_decline st cid hdr.id)
      · have n0 : ¬ hdr.type = JEUX_NO_PKT := by rw [ht]; decide
        have n1 : ¬ hdr.type = JEUX_LOGIN_PKT := by rw [ht]; decide
        have n2 : ¬ hdr.type = JEUX_USERS_PKT := by rw [ht]; decide
        have n3 : ¬ hdr.type = JEUX_INVITE_PKT := by rw [ht]; decide
        have n4 : ¬ hdr.type = JEUX_REVOKE_PKT := by rw [ht]; decide
        have n5 : ¬ hdr.type = JEUX_DECLINE_PKT := by rw [ht]; decide
        unfold jeux_dispatch
        rw [if_neg n0, if_neg n1, if_neg n2, if_neg n3, if_neg n4, if_neg n5, if_pos ht, if_neg htf]
        by_cases hac : (client_accept_invitation st cid hdr.id none).1 = -1
        · rw [if_pos hac]
          exact count_nack_after cid _ (no_response_accept st cid hdr.id none)
        · rw [if_neg hac]
          rcases accept_strp_shape st cid hdr.id with hsh | ⟨g, hsh⟩
          · rw [hsh]
            dsimp only
            exact count_response_after cid _ _ _ (no_response_accept st cid hdr.id none)
              (Or.inl (by simp [construct_packet]))
              (Or.inl ⟨by simp [construct_packet], rfl⟩)
          · rw [hsh]
            dsimp only
            exact count_response_after cid _ _ _ (no_response_accept st cid hdr.id none)
              (Or.inl (by simp [construct_packet]))
              (Or.inr ⟨by simpa [construct_packet] using game_unparse_state_len g, by simp⟩)
      · have n0 : ¬ hdr.type = JEUX_NO_PKT := by rw [ht]; decide
        have n1 : ¬ hdr.type = JEUX_LOGIN_PKT := by rw [ht]; decide
        have n2 : ¬ hdr.type = JEUX_USERS_PKT := by rw [ht]; decide
        have n3 : ¬ hdr.type = JEUX_INVITE_PKT := by rw [ht]; decide
        have n4 : ¬ hdr.type = JEUX_REVOKE_PKT := by rw [ht]; decide
        have n5 : ¬ hdr.type = JEUX_DECLINE_PKT := by rw [ht]; decide
        have n6 : ¬ hdr.type = JEUX_ACCEPT_PKT := by rw [ht]; decide
        unfold jeux_dispatch
        rw [if_neg n0, if_neg n1, if_neg n2, if_neg n3, if_neg n4, if_neg n5, if_neg n6, if_pos ht, if_neg htf]
        by_cases hmv : (client_make_move st cid hdr.id pl).1 = -1
        · rw [if_pos hmv]
          exact count_nack_after cid _ (no_response_make_move st cid hdr.id pl)
        · rw [if_neg hmv]
          exact count_ack0_after cid _ (no_response_make_move st cid hdr.id pl)
      · have n0 : ¬ hdr.type = JEUX_NO_PKT := by rw [ht]; decide
        have n1 : ¬ hdr.type = JEUX_LOGIN_PKT := by rw [ht]; decide
        have n2 : ¬ hdr.type = JEUX_USERS_PKT := by rw [ht]; decide
        have n3 : ¬ hdr.type = JEUX_INVITE_PKT := by rw [ht]; decide
        have n4 : ¬ hdr.type = JEUX_REVOKE_PKT := by rw [ht]; decide
        have n5 : ¬ hdr.type = JEUX_DECLINE_PKT := by rw [ht]; decide
        have n6 : ¬ hdr.type = JEUX_ACCEPT_PKT := by rw [ht]; decide
        have n7 : ¬ hdr.type = JEUX_MOVE_PKT := by rw [ht]; decide
        unfold jeux_dispatch
        rw [if_neg n0, if_neg n1, if_neg n2, if_neg n3, if_neg n4, if_neg n5, if_neg n6, if_neg n7, if_pos ht, if_neg htf]
        by_cases hrs : (client_resign_game st cid hdr.id).1 = -1
        · rw [if_pos hrs]
          exact count_nack_after cid _ (no_response_resign st cid hdr.id)
        · rw [if_neg hrs]
          exact count_ack0_after cid _ (no_response_resign st cid hdr.id)
  · intro hun
    rcases hun with h0 | h9
    · unfold jeux_dispatch
      rw [if_pos (show hdr.type = JEUX_NO_PKT from h0)]
    · have n0 : ¬ hdr.type = JEUX_NO_PKT := by simp only [JEUX_NO_PKT]; omega
      have n1 : ¬ hdr.type = JEUX_LOGIN_PKT := by simp only [JEUX_LOGIN_PKT]; omega
      have n2 : ¬ hdr.type = JEUX_USERS_PKT := by simp only [JEUX_USERS_PKT]; omega
      have n3 : ¬ hdr.type = JEUX_INVITE_PKT := by simp only [JEUX_INVITE_PKT]; omega
      have n4 : ¬ hdr.type = JEUX_REVOKE_PKT := by simp only [JEUX_REVOKE_PKT]; omega
      have n5 : ¬ hdr.type = JEUX_DECLINE_PKT := by simp only [JEUX_DECLINE_PKT]; omega
      have n6 : ¬ hdr.type = JEUX_ACCEPT_PKT := by simp only [JEUX_ACCEPT_PKT]; omega
      have n7 : ¬ hdr.type = JEUX_MOVE_PKT := by simp only [JEUX_MOVE_PKT]; omega
      have n8 : ¬ hdr.type = JEUX_RESIGN_PKT := by simp only [JEUX_RESIGN_PKT]; omega
      unfold jeux_dispatch
      rw [if_neg n0, if_neg n1, if_neg n2, if_neg n3, if_neg n4, if_neg n5, if_neg n6, if_neg n7, if_neg n8]

/-- A USERS request frame, for the witness below. -/
def hdrC1 : JEUX_PACKET_HEADER :=
  { type := 2, id := 0, role := 0, size := 0, timestamp_sec := 0, timestamp_nsec := 0 }

/-- Counterexample to the claimed NACK on undefined frame types: a type-0
frame and a type-99 frame make the service loop send nothing at all,
whether or not the client is logged in. -/
theorem unknown_frame_silent_counterexample :
    (jeux_dispatch exStC4 0 true
      { type := 0, id := 0, role := 0, size := 0, timestamp_sec := 0, timestamp_nsec := 0 }
      []).sends = [] ∧
    (jeux_dispatch exStC4 0 false
      { type := 0, id := 0, role := 0, size := 0, timestamp_sec := 0, timestamp_nsec := 0 }
      []).sends = [] ∧
    (jeux_dispatch exStC4 0 true
      { type := 99, id := 0, role := 0, size := 0, timestamp_sec := 0, timestamp_nsec := 0 }
      []).sends = [] ∧
    (jeux_dispatch exStC4 0 false
      { type := 99, id := 0, role := 0, size := 0, timestamp_sec := 0, timestamp_nsec := 0 }
      []).sends = [] := by
  decide

/-- Witness for dispatch_single_response: a logged-in USERS request in
exStC4 draws exactly one response. -/
theorem dispatch_single_response_witness :
    (hdrC1.type ∈ [JEUX_LOGIN_PKT, JEUX_USERS_PKT, JEUX_INVITE_PKT, JEUX_REVOKE_PKT,
        JEUX_DECLINE_PKT, JEUX_ACCEPT_PKT, JEUX_MOVE_PKT, JEUX_RESIGN_PKT] →
      ((jeux_dispatch exStC4 1 true hdrC1 []).sends.filter (is_sync_response 1)).length
        = 1) ∧
    ((hdrC1.type = JEUX_NO_PKT ∨ 9 ≤ hdrC1.type) →
      (jeux_dispatch exStC4 1 true hdrC1 []).sends = []) :=
  dispatch_single_response exStC4 1 true hdrC1 [] tgtC4 (by decide) (by decide)
